import Mathlib

/-!
Verification of the `datacenter_orchestrator` control plane.

This file shallow-embeds the parts of the orchestrator that the verified
properties talk about: the core data model (`core/types.py`), the inventory
registry (`inventory/store.py`), the deterministic planner
(`planner/planner.py`), the risk assessor (`planner/risk.py`), the execution
guard (`agent/guard.py`), the verifier (`planner/verification.py`), the
rollback builder (`planner/rollback.py`), the in-memory executor
(`execution/mock.py`), the fabric graph and external-connectivity policy
(`fabric/graph.py`, `fabric/external_policy.py`), and the orchestration
engine's `run_once` (`agent/engine.py`).

Python dictionaries are embedded as insertion-ordered association lists with
Python-dict assignment semantics (`Pdict.insert` overwrites in place, else
appends); JSON-compatible values are embedded as the inductive `JSON`.
-/

namespace DcOrch

/-- JSON-compatible Python values: None, bools, ints, strings, lists, dicts. -/
inductive JSON where
  | null
  | bool (b : Bool)
  | num (n : Int)
  | str (s : String)
  | arr (xs : List JSON)
  | obj (fields : List (String × JSON))
deriving Repr

mutual

def JSON.beq : JSON → JSON → Bool
  | .null, .null => true
  | .bool a, .bool b => a == b
  | .num a, .num b => a == b
  | .str a, .str b => a == b
  | .arr a, .arr b => JSON.beqList a b
  | .obj a, .obj b => JSON.beqFields a b
  | _, _ => false

def JSON.beqList : List JSON → List JSON → Bool
  | [], [] => true
  | a :: as, b :: bs => JSON.beq a b && JSON.beqList as bs
  | _, _ => false

def JSON.beqFields : List (String × JSON) → List (String × JSON) → Bool
  | [], [] => true
  | (ka, va) :: as, (kb, vb) :: bs => ka == kb && JSON.beq va vb && JSON.beqFields as bs
  | _, _ => false

end

mutual

theorem JSON.beq_iff : ∀ a b : JSON, JSON.beq a b = true ↔ a = b
  | .null, .null => by simp [JSON.beq]
  | .null, .bool _ | .null, .num _ | .null, .str _ | .null, .arr _ | .null, .obj _ => by
    simp [JSON.beq]
  | .bool _, .null | .bool _, .num _ | .bool _, .str _ | .bool _, .arr _ | .bool _, .obj _ => by
    simp [JSON.beq]
  | .bool a, .bool b => by simp [JSON.beq]
  | .num a, .num b => by simp [JSON.beq]
  | .num _, .null | .num _, .bool _ | .num _, .str _ | .num _, .arr _ | .num _, .obj _ => by
    simp [JSON.beq]
  | .str a, .str b => by simp [JSON.beq]
  | .str _, .null | .str _, .bool _ | .str _, .num _ | .str _, .arr _ | .str _, .obj _ => by
    simp [JSON.beq]
  | .arr a, .arr b => by
    simp only [JSON.beq, JSON.beqList_iff a b, JSON.arr.injEq]
  | .arr _, .null | .arr _, .bool _ | .arr _, .num _ | .arr _, .str _ | .arr _, .obj _ => by
    simp [JSON.beq]
  | .obj a, .obj b => by
    simp only [JSON.beq, JSON.beqFields_iff a b, JSON.obj.injEq]
  | .obj _, .null | .obj _, .bool _ | .obj _, .num _ | .obj _, .str _ | .obj _, .arr _ => by
    simp [JSON.beq]

theorem JSON.beqList_iff : ∀ a b : List JSON, JSON.beqList a b = true ↔ a = b
  | [], [] => by simp [JSON.beqList]
  | [], _ :: _ => by simp [JSON.beqList]
  | _ :: _, [] => by simp [JSON.beqList]
  | a :: as, b :: bs => by
    simp only [JSON.beqList, Bool.and_eq_true, JSON.beq_iff a b, JSON.beqList_iff as bs,
      List.cons.injEq]

theorem JSON.beqFields_iff :
    ∀ a b : List (String × JSON), JSON.beqFields a b = true ↔ a = b
  | [], [] => by simp [JSON.beqFields]
  | [], _ :: _ => by simp [JSON.beqFields]
  | _ :: _, [] => by simp [JSON.beqFields]
  | (ka, va) :: as, (kb, vb) :: bs => by
    simp only [JSON.beqFields, Bool.and_eq_true, beq_iff_eq, JSON.beq_iff va vb,
      JSON.beqFields_iff as bs, List.cons.injEq, Prod.mk.injEq, and_assoc]

end

instance : DecidableEq JSON := fun a b =>
  decidable_of_iff (JSON.beq a b = true) (JSON.beq_iff a b)

/-- A Python `dict` with `String` keys: an insertion-ordered association list. -/
abbrev Pdict (α : Type) : Type := List (String × α)

namespace Pdict

/-- `d.get(k)` / `d[k]`: first binding for `k` (keys are unique in real dicts). -/
def get {α : Type} : Pdict α → String → Option α
  | [], _ => none
  | (k, v) :: rest, key => if k = key then some v else Pdict.get rest key

/-- `d[k] = v`: overwrite the existing binding in place, else append. -/
def insert {α : Type} : Pdict α → String → α → Pdict α
  | [], key, v => [(key, v)]
  | (k, w) :: rest, key, v =>
    if k = key then (k, v) :: rest else (k, w) :: Pdict.insert rest key v

/-- `list(d.keys())`. -/
def keys {α : Type} (d : Pdict α) : List String := d.map Prod.fst

/-- `k in d`. -/
def hasKey {α : Type} (d : Pdict α) (k : String) : Bool := (d.get k).isSome

/-- `list(d.values())`. -/
def values {α : Type} (d : Pdict α) : List α := d.map Prod.snd

theorem get_insert_self {α : Type} (d : Pdict α) (k : String) (v : α) :
    (d.insert k v).get k = some v := by
  induction d with
  | nil => simp [Pdict.insert, Pdict.get]
  | cons hd tl ih =>
    obtain ⟨k', w⟩ := hd
    by_cases h : k' = k <;> simp [Pdict.insert, Pdict.get, h, ih]

theorem get_insert_ne {α : Type} (d : Pdict α) (k k' : String) (v : α) (h : k ≠ k') :
    (d.insert k v).get k' = d.get k' := by
  induction d with
  | nil => simp [Pdict.insert, Pdict.get, h]
  | cons hd tl ih =>
    obtain ⟨k0, w⟩ := hd
    by_cases h0 : k0 = k
    · subst h0
      simp [Pdict.insert, Pdict.get, h]
    · simp only [Pdict.insert, if_neg h0]
      by_cases h1 : k0 = k'
      · simp [Pdict.get, h1]
      · simp [Pdict.get, h1, ih]

theorem hasKey_iff_mem_keys {α : Type} (d : Pdict α) (k : String) :
    d.hasKey k = true ↔ k ∈ d.keys := by
  induction d with
  | nil => simp [Pdict.hasKey, Pdict.get, Pdict.keys]
  | cons hd tl ih =>
    obtain ⟨k0, w⟩ := hd
    by_cases h0 : k0 = k
    · simp [Pdict.hasKey, Pdict.get, Pdict.keys, h0]
    · simp only [Pdict.hasKey, Pdict.get, if_neg h0, Pdict.keys, List.map_cons,
        List.mem_cons]
      rw [Pdict.hasKey, Pdict.keys] at ih
      rw [ih]
      constructor
      · exact fun h => Or.inr h
      · rintro (h | h)
        · exact absurd h.symm h0
        · exact h

theorem keys_insert_of_has {α : Type} (d : Pdict α) (k : String) (v : α)
    (h : d.hasKey k = true) : (d.insert k v).keys = d.keys := by
  induction d with
  | nil => simp [Pdict.hasKey, Pdict.get] at h
  | cons hd tl ih =>
    obtain ⟨k0, w⟩ := hd
    by_cases h0 : k0 = k
    · simp [Pdict.insert, Pdict.keys, h0]
    · simp only [Pdict.hasKey, Pdict.get, if_neg h0] at h
      have htl := ih h
      simp only [Pdict.insert, if_neg h0, Pdict.keys, List.map_cons] at htl ⊢
      rw [htl]

theorem keys_insert_of_not_has {α : Type} (d : Pdict α) (k : String) (v : α)
    (h : d.hasKey k = false) : (d.insert k v).keys = d.keys ++ [k] := by
  induction d with
  | nil => simp [Pdict.insert, Pdict.keys]
  | cons hd tl ih =>
    obtain ⟨k0, w⟩ := hd
    by_cases h0 : k0 = k
    · simp [Pdict.hasKey, Pdict.get, h0] at h
    · simp only [Pdict.hasKey, Pdict.get, if_neg h0] at h
      have htl := ih h
      simp only [Pdict.insert, if_neg h0, Pdict.keys, List.map_cons] at htl ⊢
      rw [htl]
      simp

theorem nodup_keys_insert {α : Type} (d : Pdict α) (k : String) (v : α)
    (h : d.keys.Nodup) : (d.insert k v).keys.Nodup := by
  by_cases hk : d.hasKey k = true
  · rw [keys_insert_of_has d k v hk]
    exact h
  · rw [keys_insert_of_not_has d k v (by simpa using hk)]
    have hkmem : k ∉ d.keys := fun hmem => hk ((hasKey_iff_mem_keys d k).mpr hmem)
    simp [List.nodup_append, h, hkmem]

theorem get_eq_none_of_not_mem_keys {α : Type} (d : Pdict α) (k : String)
    (h : k ∉ d.keys) : d.get k = none := by
  have : d.hasKey k = false := by
    rcases Bool.eq_false_or_eq_true (d.hasKey k) with hb | hb
    · exact absurd ((hasKey_iff_mem_keys d k).mp hb) h
    · exact hb
  rw [Pdict.hasKey] at this
  cases hg : d.get k with
  | none => rfl
  | some v => rw [hg] at this; simp at this

end Pdict

/-! ## Core data model (`core/types.py`) -/

/-- Device roles in a CLOS fabric (`DeviceRole`). -/
inductive DeviceRole where
  | leaf
  | spine
  | super_spine
  | border_leaf
  | border_spine
  | services_leaf
  | edge_leaf
deriving DecidableEq, Repr

/-- Link classification (`LinkKind`). -/
inductive LinkKind where
  | fabric
  | mlag_peer
  | external
  | internet
  | wan
deriving DecidableEq, Repr

/-- Confidence for derived facts (`Confidence`). -/
inductive Confidence where
  | high
  | medium
  | low
deriving DecidableEq, Repr

/-- Evidence record for a derived fact (`Evidence`). -/
structure FactEvidence where
  source : String
  detail : String
deriving DecidableEq, Repr

/-- A normalized capability classification (`CapabilityClass`). -/
structure CapabilityClass where
  name : String
  confidence : Confidence
  evidence : List FactEvidence
deriving DecidableEq, Repr

/-- Vendor identity for a device (`DeviceIdentity`). -/
structure DeviceIdentity where
  vendor : String
  model : String
  os_name : String
  os_version : String
  serial : String := ""
deriving DecidableEq, Repr

/-- How to reach a device (`DeviceEndpoints`). -/
structure DeviceEndpoints where
  mgmt_host : String
  gnmi_host : String
  gnmi_port : Nat := 57400
deriving DecidableEq, Repr

/-- Fabric location (`FabricLocation`). -/
structure FabricLocation where
  pod : String
  rack : String
  plane : String := "default"
deriving DecidableEq, Repr

/-- Link from one device interface to a peer (`Link`). -/
structure Link where
  local_intf : String
  peer_device : String
  peer_intf : String
  kind : LinkKind := LinkKind.fabric
deriving DecidableEq, Repr

/-- A device record in the inventory store (`DeviceRecord`). -/
structure DeviceRecord where
  name : String
  role : DeviceRole
  identity : DeviceIdentity
  endpoints : DeviceEndpoints
  location : FabricLocation
  links : List Link := []
  bandwidth_class : Option CapabilityClass := none
  asic_class : Option CapabilityClass := none
  buffer_class : Option CapabilityClass := none
  table_scale_class : Option CapabilityClass := none
  telemetry_class : Option CapabilityClass := none
  role_fitness : Pdict CapabilityClass := []
deriving DecidableEq, Repr

/-- A single device action produced by the planner (`ChangeAction`).
`model_paths` is a Python dict mapping model-path string to desired value. -/
structure ChangeAction where
  device : String
  model_paths : Pdict JSON
  reason : String
deriving DecidableEq, Repr

/-- One verification check, as a record of the four keys the verifier reads
from the check dict (`{"type", "device", "path", "expected"}`). -/
structure Check where
  ctype : String
  device : String
  path : String
  expected : JSON
deriving DecidableEq, Repr

/-- Verification specification (`VerificationSpec`). -/
structure VerificationSpec where
  checks : List Check
  probes : List (Pdict JSON)
  window_seconds : Nat := 60
deriving DecidableEq, Repr

/-- Rollback specification (`RollbackSpec`). -/
structure RollbackSpec where
  enabled : Bool := true
  triggers : List String := []
deriving DecidableEq, Repr

/-- ChangePlan is the structured output of the planner (`ChangePlan`). -/
structure ChangePlan where
  plan_id : String
  actions : List ChangeAction
  verification : VerificationSpec
  rollback : RollbackSpec
  risk : String
  explanation : String
deriving DecidableEq, Repr

/-! ## Inventory store (`inventory/store.py`) -/

/-- Simple device registry keyed by device name (`InventoryStore`). -/
structure InventoryStore where
  devices : Pdict DeviceRecord := []
deriving DecidableEq, Repr

namespace InventoryStore

/-- `InventoryStore.add`: add or replace a device record
(`self._devices[dev.name] = dev`). -/
def add (s : InventoryStore) (dev : DeviceRecord) : InventoryStore :=
  ⟨s.devices.insert dev.name dev⟩

/-- `InventoryStore.get`: return device record if present. -/
def get (s : InventoryStore) (name : String) : Option DeviceRecord :=
  s.devices.get name

/-- `InventoryStore.all`: return all devices as a list. -/
def all (s : InventoryStore) : List DeviceRecord :=
  s.devices.values

end InventoryStore

/-! ## Fabric role helpers (`fabric/roles.py`) -/

/-- True if this role behaves like a leaf in topology terms. -/
def is_leaf_role (role : DeviceRole) : Bool :=
  role = DeviceRole.leaf || role = DeviceRole.border_leaf ||
    role = DeviceRole.services_leaf || role = DeviceRole.edge_leaf

/-- True if this role behaves like a spine layer. -/
def is_spine_role (role : DeviceRole) : Bool :=
  role = DeviceRole.spine || role = DeviceRole.border_spine

/-- True if this role is super spine. -/
def is_super_spine_role (role : DeviceRole) : Bool :=
  role = DeviceRole.super_spine

/-- True if this role is intended to connect externally. -/
def is_border_role (role : DeviceRole) : Bool :=
  role = DeviceRole.border_leaf || role = DeviceRole.border_spine

/-! ## Python string helpers

`repr`/`str` of JSON-compatible values (used by f-strings and `str(...)`
coercions in the source), lexicographic sorting (`sorted`), and substring
search (`in`). -/

mutual

/-- Python `repr` of a JSON-compatible value. -/
def pyRepr : JSON → String
  | .null => "None"
  | .bool b => if b then "True" else "False"
  | .num n => toString n
  | .str s => "\x27" ++ s ++ "\x27"
  | .arr xs => "[" ++ ", ".intercalate (pyReprList xs) ++ "]"
  | .obj fields => "\x7b" ++ ", ".intercalate (pyReprFields fields) ++ "\x7d"

def pyReprList : List JSON → List String
  | [] => []
  | x :: xs => pyRepr x :: pyReprList xs

def pyReprFields : List (String × JSON) → List String
  | [] => []
  | (k, v) :: rest => ("\x27" ++ k ++ "\x27: " ++ pyRepr v) :: pyReprFields rest

end

/-- Python `str` of a JSON-compatible value (`str(x)`). -/
def pyStr : JSON → String
  | .str s => s
  | v => pyRepr v

/-- Lexicographic comparison of char lists by code point, exactly as Python
compares `str`. -/
def charListLe : List Char → List Char → Bool
  | [], _ => true
  | _ :: _, [] => false
  | a :: as, b :: bs =>
    if a < b then true else if b < a then false else charListLe as bs

/-- Python `s <= t` on strings. -/
def strLe (s t : String) : Bool := charListLe s.data t.data

/-- Insert a string into a sorted list, keeping it sorted (helper for
Python's `sorted`). -/
def insertSorted (s : String) : List String → List String
  | [] => [s]
  | t :: ts => if strLe s t then s :: t :: ts else t :: insertSorted s ts

/-- Python `sorted` on a list of strings (insertion sort; stable, and
lexicographic by code point exactly as Python compares `str`). -/
def sortStrings : List String → List String
  | [] => []
  | s :: ss => insertSorted s (sortStrings ss)

/-- Does `pat` occur as a prefix of `l`? -/
def charsPrefix : List Char → List Char → Bool
  | [], _ => true
  | _ :: _, [] => false
  | a :: as, b :: bs => a = b && charsPrefix as bs

/-- Does `pat` occur as a contiguous subsequence of `l`? -/
def charsContain (pat : List Char) : List Char → Bool
  | [] => pat.isEmpty
  | b :: bs => charsPrefix pat (b :: bs) || charsContain pat bs

/-- Python `sub in s` on strings. -/
def strContains (s sub : String) : Bool := charsContain sub.data s.data

/-- Python `s.lower()` (character-wise lowering, as `str.lower` does for the
ASCII model paths this system uses). -/
def pyLower (s : String) : String := ⟨s.data.map Char.toLower⟩

/-! ## Deterministic planner (`planner/planner.py`) -/

/-- Planner configuration (`PlannerConfig`). -/
structure PlannerConfig where
  max_devices_low_risk : Nat := 2
  verification_window_seconds : Nat := 60
deriving DecidableEq, Repr

/-- IntentChange represents a desired state update (`IntentChange`). -/
structure IntentChange where
  change_id : String
  scope : String
  desired : Pdict JSON
  current : Pdict JSON
  diff_summary : String
deriving DecidableEq, Repr

/-- The item loop of `DeterministicPlanner._parse_actions` over the
`desired["actions"]` list (with `enumerate` index threading). -/
def parseActionItems : List JSON → Nat → Except String (List ChangeAction)
  | [], _ => .ok []
  | raw :: rest, idx =>
    match raw with
    | JSON.obj fields =>
      let device := Pdict.get fields "device"
      let model_paths := Pdict.get fields "model_paths"
      let reason := (Pdict.get fields "reason").getD (JSON.str "intent action")
      match device with
      | some (JSON.str d) =>
        if d = "" then
          .error ("desired.actions item " ++ toString idx ++ " missing device str")
        else
          match model_paths with
          | some (JSON.obj mp) =>
            if mp.isEmpty then
              .error ("desired.actions item " ++ toString idx ++ " missing model_paths dict")
            else
              match parseActionItems rest (idx + 1) with
              | .error m => .error m
              | .ok tail => .ok (⟨d, mp, pyStr reason⟩ :: tail)
          | _ =>
            .error ("desired.actions item " ++ toString idx ++ " missing model_paths dict")
      | _ => .error ("desired.actions item " ++ toString idx ++ " missing device str")
    | _ => .error ("desired.actions item " ++ toString idx ++ " must be a dict")

/-- `DeterministicPlanner._parse_actions`: parse actions from the desired
dict, accepting the actions-list form or the single-action shorthand. -/
def parse_actions (desired : Pdict JSON) : Except String (List ChangeAction) :=
  if desired.hasKey "actions" then
    match (desired.get "actions").getD JSON.null with
    | JSON.arr raws => parseActionItems raws 0
    | _ => .error "desired.actions must be a list"
  else
    match desired.get "device", desired.get "model_paths" with
    | some (JSON.str d), some (JSON.obj mp) =>
      if mp.isEmpty then
        .error "desired must include actions list or device and model_paths"
      else
        .ok [⟨d, mp, pyStr ((desired.get "reason").getD (JSON.str "intent action"))⟩]
    | _, _ => .error "desired must include actions list or device and model_paths"

/-- `DeterministicPlanner._validate_actions_exist_in_inventory`: every
referenced device must exist; the error lists missing names sorted and
deduplicated. -/
def validate_actions_exist_in_inventory (actions : List ChangeAction)
    (inventory : InventoryStore) : Except String Unit :=
  let missing := (actions.filter (fun a => (inventory.get a.device).isNone)).map (·.device)
  if missing.isEmpty then .ok ()
  else
    .error ("plan references devices not present in inventory: "
      ++ ", ".intercalate (sortStrings missing.dedup))

/-- `DeterministicPlanner._compute_risk`: coarse risk level from the number
of actions. -/
def compute_risk (config : PlannerConfig) (actions : List ChangeAction) : String :=
  if actions.length ≤ config.max_devices_low_risk then "low"
  else if actions.length ≤ 10 then "medium"
  else "high"

/-- `DeterministicPlanner._build_verification`: a `path_equals` check for
every model path written, no probes, configured window. -/
def build_verification (config : PlannerConfig) (actions : List ChangeAction) :
    VerificationSpec :=
  let checks := actions.flatMap fun act =>
    act.model_paths.map fun pv => Check.mk "path_equals" act.device pv.1 pv.2
  ⟨checks, [], config.verification_window_seconds⟩

/-- `DeterministicPlanner._build_rollback_spec`: rollback enabled, triggered
by any verification failure. -/
def build_rollback_spec : RollbackSpec :=
  ⟨true, ["any_verification_failure"]⟩

/-- `DeterministicPlanner.plan_change`: convert intent into an executable
ChangePlan, or fail with the planner's `ValueError` message. -/
def plan_change (config : PlannerConfig) (intent : IntentChange)
    (inventory : InventoryStore) : Except String ChangePlan :=
  match parse_actions intent.desired with
  | .error m => .error m
  | .ok actions =>
    match validate_actions_exist_in_inventory actions inventory with
    | .error m => .error m
    | .ok _ =>
      let risk := compute_risk config actions
      let verification := build_verification config actions
      let rollback := build_rollback_spec
      let explanation :=
        "Plan created from declarative intent. Device count "
          ++ toString actions.length ++ ". Risk " ++ risk
          ++ ". Verification checks " ++ toString verification.checks.length ++ "."
      .ok ⟨intent.change_id, actions, verification, rollback, risk, explanation⟩

/-! ## Risk assessor (`planner/risk.py`) -/

/-- Coarse risk level for a plan (`RiskLevel`). -/
inductive RiskLevel where
  | low
  | medium
  | high
deriving DecidableEq, Repr

/-- `evidence["role_counts"]` of the risk assessment. -/
structure RiskRoleCounts where
  leaf : Nat
  spine : Nat
  super_spine : Nat
  unknown : Nat
deriving DecidableEq, Repr

/-- `evidence["touches"]` of the risk assessment. -/
structure RiskTouches where
  external : Bool
  bgp : Bool
  ospf : Bool
deriving DecidableEq, Repr

/-- The structured evidence dict built by `assess_plan_risk`. -/
structure RiskEvidence where
  device_count : Nat
  devices : List String
  role_counts : RiskRoleCounts
  touches : RiskTouches
deriving DecidableEq, Repr

/-- Risk assessment result (`PlanRiskAssessment`). -/
structure PlanRiskAssessment where
  risk_level : RiskLevel
  blast_radius_score : Nat
  requires_approval : Bool
  reasons : List String
  evidence : RiskEvidence
deriving DecidableEq, Repr

/-- The accumulator of the per-action loop in `assess_plan_risk`:
role-tier counters and path-substring flags. -/
structure RiskScan where
  leaf_count : Nat := 0
  spine_count : Nat := 0
  super_spine_count : Nat := 0
  unknown_count : Nat := 0
  touches_external : Bool := false
  touches_bgp : Bool := false
  touches_ospf : Bool := false
deriving DecidableEq, Repr

/-- The path inner loop of `assess_plan_risk`: lowercase each path and set
the `bgp` / `ospf` / external flags on substring hits. -/
def riskScanPaths (s : RiskScan) (paths : List String) : RiskScan :=
  paths.foldl
    (fun s path =>
      let p := pyLower path
      { s with
        touches_bgp := s.touches_bgp || strContains p "bgp"
        touches_ospf := s.touches_ospf || strContains p "ospf"
        touches_external := s.touches_external ||
          (strContains p "external" || strContains p "internet" || strContains p "wan") })
    s

/-- One iteration of the action loop in `assess_plan_risk`: bump the role
counter for the action's device, then scan its paths. -/
def riskScanAction (inventory : InventoryStore) (s : RiskScan) (act : ChangeAction) :
    RiskScan :=
  let s :=
    match inventory.get act.device with
    | none => { s with unknown_count := s.unknown_count + 1 }
    | some dev =>
      if is_super_spine_role dev.role then
        { s with super_spine_count := s.super_spine_count + 1 }
      else if is_spine_role dev.role then
        { s with spine_count := s.spine_count + 1 }
      else if is_leaf_role dev.role then
        { s with leaf_count := s.leaf_count + 1 }
      else
        { s with unknown_count := s.unknown_count + 1 }
  riskScanPaths s act.model_paths.keys

/-- `assess_plan_risk`: deterministic blast-radius scoring from the plan's
actions plus per-device role lookups. -/
def assess_plan_risk (plan : ChangePlan) (inventory : InventoryStore) :
    PlanRiskAssessment :=
  let devices_touched := plan.actions.map (·.device)
  let unique_devices := sortStrings devices_touched.dedup
  let device_count := unique_devices.length
  let scan := plan.actions.foldl (riskScanAction inventory) {}
  let blast := device_count * 10 + scan.spine_count * 15 + scan.super_spine_count * 25
    + (if scan.unknown_count ≠ 0 then 20 else 0)
    + (if scan.touches_external then 30 else 0)
    + (if scan.touches_bgp then 20 else 0)
    + (if scan.touches_ospf then 15 else 0)
  let reasons : List String :=
    (if scan.unknown_count ≠ 0 then ["plan references devices missing from inventory"] else [])
    ++ (if scan.touches_external then ["plan touches external connectivity related paths"] else [])
    ++ (if scan.touches_bgp then ["plan modifies bgp related model paths"] else [])
    ++ (if scan.touches_ospf then ["plan modifies ospf related model paths"] else [])
    ++ (if scan.super_spine_count ≠ 0 then
          ["plan touches super spine tier which impacts large blast radius"] else [])
    ++ (if scan.spine_count ≠ 0 ∧ device_count ≤ 2 then
          ["plan touches spine tier even though device count is small"] else [])
  let risk_level :=
    if device_count ≤ 2 ∧ ¬(scan.touches_external ∨ scan.touches_bgp ∨ scan.touches_ospf) then
      RiskLevel.low
    else if blast < 80 then RiskLevel.medium
    else RiskLevel.high
  let requires_approval :=
    risk_level = RiskLevel.high || scan.touches_external || scan.super_spine_count > 0
  let reasons :=
    if reasons.isEmpty then ["risk computed from device count and role tier impact"]
    else reasons
  { risk_level := risk_level
    blast_radius_score := blast
    requires_approval := requires_approval
    reasons := reasons
    evidence :=
      { device_count := device_count
        devices := unique_devices
        role_counts :=
          ⟨scan.leaf_count, scan.spine_count, scan.super_spine_count, scan.unknown_count⟩
        touches := ⟨scan.touches_external, scan.touches_bgp, scan.touches_ospf⟩ } }

/-! ## Execution guard (`agent/guard.py`, `agent/execution_mode.py`) -/

/-- Execution mode (`ExecutionMode`). -/
inductive ExecutionMode where
  | apply
  | simulate
  | dry_run
deriving DecidableEq, Repr

/-- Guard decision (`GuardDecision`). -/
structure GuardDecision where
  mode : ExecutionMode
  allowed : Bool
  reasons : List String
deriving DecidableEq, Repr

/-- Guard configuration (`GuardConfig`). -/
structure GuardConfig where
  default_mode : ExecutionMode := ExecutionMode.apply
  high_risk_mode : ExecutionMode := ExecutionMode.dry_run
  require_approval_blocks_apply : Bool := true
deriving DecidableEq, Repr

/-- `ExecutionGuard.decide`: decide how the engine should proceed from a
risk assessment. -/
def guard_decide (config : GuardConfig) (risk : PlanRiskAssessment) : GuardDecision :=
  let reasons := risk.reasons
  if risk.risk_level = RiskLevel.high then
    let mode := config.high_risk_mode
    let allowed : Bool := mode = ExecutionMode.apply
    ⟨mode, allowed, reasons ++ ["high risk plan guarded by high risk mode"]⟩
  else if config.require_approval_blocks_apply && risk.requires_approval then
    ⟨ExecutionMode.dry_run, false, reasons ++ ["plan requires approval so apply is blocked"]⟩
  else
    let mode := config.default_mode
    let allowed : Bool := mode = ExecutionMode.apply
    if mode = ExecutionMode.simulate then
      ⟨mode, false, reasons ++ ["default mode is simulate so apply is not performed"]⟩
    else if mode = ExecutionMode.dry_run then
      ⟨mode, false, reasons ++ ["default mode is dry_run so apply is not performed"]⟩
    else
      ⟨mode, allowed, reasons⟩

/-! ## Verifier (`planner/verification.py`) -/

/-- One entry of `evidence["check_results"]`. -/
inductive CheckResult where
  | unsupported (index : Nat) (ctype : String)
  | missing (index : Nat) (ctype device path : String)
  | valueMismatch (index : Nat) (ctype device path : String) (expected observed : JSON)
  | pass (index : Nat) (ctype device path : String)
deriving DecidableEq, Repr

/-- Verification outcome (`VerificationOutcome`). -/
structure VerificationOutcome where
  ok : Bool
  failures : List String
  check_results : List CheckResult
deriving DecidableEq, Repr

/-- The check loop of `evaluate_verification`, with the `enumerate` index. -/
def evalChecks (observed_state : Pdict (Pdict JSON)) :
    List Check → Nat → List String × List CheckResult
  | [], _ => ([], [])
  | check :: rest, idx =>
    let (failures, results) := evalChecks observed_state rest (idx + 1)
    if check.ctype ≠ "path_equals" then
      (("unsupported check type at index " ++ toString idx ++ ": " ++ check.ctype) :: failures,
        CheckResult.unsupported idx check.ctype :: results)
    else
      let device_state := (observed_state.get check.device).getD []
      if ¬ device_state.hasKey check.path then
        (("missing observed path for device " ++ check.device ++ ": " ++ check.path) :: failures,
          CheckResult.missing idx check.ctype check.device check.path :: results)
      else
        let observed := (device_state.get check.path).getD JSON.null
        if observed ≠ check.expected then
          (("value mismatch device " ++ check.device ++ " path " ++ check.path
              ++ " expected " ++ pyStr check.expected ++ " observed " ++ pyStr observed)
              :: failures,
            CheckResult.valueMismatch idx check.ctype check.device check.path
              check.expected observed :: results)
        else
          (failures, CheckResult.pass idx check.ctype check.device check.path :: results)

/-- `evaluate_verification`: evaluate a VerificationSpec against observed
device state; `ok` iff no failures. -/
def evaluate_verification (spec : VerificationSpec)
    (observed_state : Pdict (Pdict JSON)) : VerificationOutcome :=
  let (failures, results) := evalChecks observed_state spec.checks 0
  ⟨failures.isEmpty, failures, results⟩

/-! ## Rollback builder (`planner/rollback.py`) -/

/-- Output of rollback construction (`RollbackBuildResult`). -/
structure RollbackBuildResult where
  plan : ChangePlan
  missing_paths : List String
deriving DecidableEq, Repr

/-- The per-action path loop of `build_rollback_plan`: split the action's
paths into rollback entries (present in the device snapshot) and missing
paths. -/
def rollbackPathsOf (device_snapshot : Pdict JSON) (act : ChangeAction) :
    Pdict JSON × List String :=
  act.model_paths.foldl
    (fun (acc : Pdict JSON × List String) pv =>
      match device_snapshot.get pv.1 with
      | none => (acc.1, acc.2 ++ [act.device ++ ":" ++ pv.1])
      | some v => (acc.1.insert pv.1 v, acc.2))
    ([], [])

/-- `build_rollback_plan`: build a rollback plan from the original plan and
the pre-change snapshot. -/
def build_rollback_plan (original_plan : ChangePlan)
    (pre_snapshot : Pdict (Pdict JSON)) : RollbackBuildResult :=
  let (rollback_actions, missing) :=
    original_plan.actions.foldl
      (fun (acc : List ChangeAction × List String) act =>
        let device_snapshot := (pre_snapshot.get act.device).getD []
        let (rollback_model_paths, miss) := rollbackPathsOf device_snapshot act
        if rollback_model_paths.isEmpty then (acc.1, acc.2 ++ miss)
        else
          (acc.1 ++ [⟨act.device, rollback_model_paths, "rollback to pre change snapshot"⟩],
            acc.2 ++ miss))
      ([], [])
  let checks := rollback_actions.flatMap fun act =>
    act.model_paths.map fun pv => Check.mk "path_equals" act.device pv.1 pv.2
  let rollback_verification : VerificationSpec := ⟨checks, [], 30⟩
  let rollback_spec : RollbackSpec := ⟨false, []⟩
  let explanation :=
    "Rollback plan built from pre change snapshot. Actions "
      ++ toString rollback_actions.length ++ ". Missing paths "
      ++ toString missing.length ++ "."
  ⟨⟨original_plan.plan_id ++ "_rollback", rollback_actions, rollback_verification,
      rollback_spec, "high", explanation⟩,
    missing⟩

/-! ## In-memory executor (`execution/mock.py`) -/

/-- In-memory executor state (`InMemoryExecutor`): a device-state database
plus an injectable mismatch map. -/
structure InMemoryExecutor where
  mismatch : Pdict (Pdict JSON) := []
  state : Pdict (Pdict JSON) := []
deriving DecidableEq, Repr

/-- Result of `InMemoryExecutor.apply_plan`: `(observed_state, pre_snapshot)`
plus the executor's mutated state. -/
structure ApplyResult where
  observed_state : Pdict (Pdict JSON)
  pre_snapshot : Pdict (Pdict JSON)
  exec : InMemoryExecutor
deriving DecidableEq, Repr

/-- The pre-read loop of `InMemoryExecutor.apply_plan`: for each touched
path, record its prior value, or `None` when the path is absent. -/
def preReadPaths (device_state : Pdict JSON) (model_paths : Pdict JSON) : Pdict JSON :=
  model_paths.foldl
    (fun (acc : Pdict JSON) pv =>
      match device_state.get pv.1 with
      | some v => acc.insert pv.1 v
      | none => acc.insert pv.1 JSON.null)
    []

/-- The write loop of `InMemoryExecutor.apply_plan`: apply every update into
the device state. -/
def writePaths (device_state : Pdict JSON) (model_paths : Pdict JSON) : Pdict JSON :=
  model_paths.foldl (fun (acc : Pdict JSON) pv => acc.insert pv.1 pv.2) device_state

/-- The read-back loop of `InMemoryExecutor.apply_plan`: re-read every
touched path from the written device state. -/
def readBackPaths (device_state : Pdict JSON) (model_paths : Pdict JSON) : Pdict JSON :=
  model_paths.foldl
    (fun (acc : Pdict JSON) pv => acc.insert pv.1 ((device_state.get pv.1).getD JSON.null))
    []

/-- The mismatch-injection step of `InMemoryExecutor.apply_plan`. -/
def injectMismatch (mismatch : Pdict (Pdict JSON)) (device : String)
    (device_obs : Pdict JSON) : Pdict JSON :=
  match mismatch.get device with
  | none => device_obs
  | some overrides =>
    overrides.foldl (fun (acc : Pdict JSON) pv => acc.insert pv.1 pv.2) device_obs

/-- One iteration of the action loop of `InMemoryExecutor.apply_plan`. -/
def applyOneAction (mismatch : Pdict (Pdict JSON)) (acc : ApplyResult)
    (act : ChangeAction) : ApplyResult :=
  let device_state := (acc.exec.state.get act.device).getD []
  let device_pre := preReadPaths device_state act.model_paths
  let device_state := writePaths device_state act.model_paths
  let device_obs := readBackPaths device_state act.model_paths
  let device_obs := injectMismatch mismatch act.device device_obs
  { observed_state := acc.observed_state.insert act.device device_obs
    pre_snapshot := acc.pre_snapshot.insert act.device device_pre
    exec := ⟨mismatch, acc.exec.state.insert act.device device_state⟩ }

/-- `InMemoryExecutor.apply_plan`: apply plan updates to internal state,
returning observed state, pre-snapshot, and the mutated executor. -/
def InMemoryExecutor.apply_plan (ex : InMemoryExecutor) (plan : ChangePlan) :
    ApplyResult :=
  plan.actions.foldl (applyOneAction ex.mismatch) ⟨[], [], ex⟩

/-! ## Orchestration engine (`agent/engine.py`)

The engine is embedded over the in-memory executor. The optional
`evaluation_tool` is a function that either returns an assessment or fails
the way `MCPClient.evaluate_plan` can fail: `urlopen` transport errors,
timeouts, and the `McpValidationError` raised on a non-ok RPC response
(`agent/mcp_client.py`). Python exceptions are modelled with `Except`. -/

/-- The ways `MCPClient.evaluate_plan` can raise. -/
inductive ToolError where
  | transport
  | timeout
  | nonOkResponse (message : String)
deriving DecidableEq, Repr

/-- An evaluation tool hook (`PlanEvaluationTool.evaluate_plan`). -/
abbrev EvaluationTool :=
  ChangePlan → InventoryStore → Except ToolError PlanRiskAssessment

/-- Exceptions escaping `OrchestrationEngine.run_once`. -/
inductive EngineError where
  | invalidIntent (message : String)
  | tool (e : ToolError)
deriving DecidableEq, Repr

/-- Alert produced by a failed orchestration run (`EngineAlert`). -/
structure EngineAlert where
  severity : String
  summary : String
  risk : Option PlanRiskAssessment
  verification_failures : List String
  rollback_attempted : Bool
deriving DecidableEq, Repr

/-- `EngineRunResult`. -/
structure EngineRunResult where
  ok : Bool
  plan : Option ChangePlan
  risk : Option PlanRiskAssessment
  guard : Option GuardDecision
  alert : Option EngineAlert
deriving DecidableEq, Repr

/-- `OrchestrationEngine._evaluate_risk`: if a tool is provided, use it
(exceptions propagate); otherwise use the deterministic local heuristics. -/
def evaluate_risk (evaluation_tool : Option EvaluationTool) (plan : ChangePlan)
    (inventory : InventoryStore) : Except ToolError PlanRiskAssessment :=
  match evaluation_tool with
  | some tool => tool plan inventory
  | none => .ok (assess_plan_risk plan inventory)

/-- `OrchestrationEngine._simulate_observed_state`: treat desired model
paths as already applied, one dict assignment per action. -/
def simulate_observed_state (plan : ChangePlan) : Pdict (Pdict JSON) :=
  plan.actions.foldl
    (fun (observed : Pdict (Pdict JSON)) act => observed.insert act.device act.model_paths)
    []

/-- `OrchestrationEngine.run_once`: plan, assess risk, guard, then dry-run /
simulate / apply with verification and rollback-on-failure. Returns the run
result and the executor as mutated by the run. -/
def run_once (planner_config : PlannerConfig) (guard_config : GuardConfig)
    (evaluation_tool : Option EvaluationTool) (executor : InMemoryExecutor)
    (intent : IntentChange) (inventory : InventoryStore) :
    Except EngineError (EngineRunResult × InMemoryExecutor) :=
  match plan_change planner_config intent inventory with
  | .error m => .error (.invalidIntent m)
  | .ok plan =>
    match evaluate_risk evaluation_tool plan inventory with
    | .error e => .error (.tool e)
    | .ok risk =>
      let guard := guard_decide guard_config risk
      if guard.mode = ExecutionMode.dry_run then
        let alert : EngineAlert :=
          ⟨"info", "dry run only, plan not applied", some risk, [], false⟩
        .ok (⟨false, some plan, some risk, some guard, some alert⟩, executor)
      else if guard.mode = ExecutionMode.simulate then
        let observed := simulate_observed_state plan
        let outcome := evaluate_verification plan.verification observed
        if outcome.ok then
          .ok (⟨true, some plan, some risk, some guard, none⟩, executor)
        else
          let alert : EngineAlert :=
            ⟨"warning", "simulation verification failed, plan not applied", some risk,
              outcome.failures, false⟩
          .ok (⟨false, some plan, some risk, some guard, some alert⟩, executor)
      else
        let applied := executor.apply_plan plan
        let outcome := evaluate_verification plan.verification applied.observed_state
        if outcome.ok then
          .ok (⟨true, some plan, some risk, some guard, none⟩, applied.exec)
        else
          let (rollback_attempted, executor2) :=
            if plan.rollback.enabled then
              let rb := build_rollback_plan plan applied.pre_snapshot
              (true, (applied.exec.apply_plan rb.plan).exec)
            else
              (false, applied.exec)
          let alert : EngineAlert :=
            ⟨"critical", "verification failed after apply", some risk, outcome.failures,
              rollback_attempted⟩
          .ok (⟨false, some plan, some risk, some guard, some alert⟩, executor2)

/-! ## Fabric graph (`fabric/graph.py`) -/

/-- One adjacency entry (`GraphEdge`). -/
structure GraphEdge where
  local_intf : String
  peer_device : String
  peer_intf : String
  kind : LinkKind
deriving DecidableEq, Repr

/-- The in-memory topology (`FabricGraph`). -/
structure FabricGraph where
  nodes : Pdict DeviceRecord
  adjacency : Pdict (List GraphEdge)
deriving DecidableEq, Repr

/-- `FabricGraph.edges_from`: outgoing edges for a device name. -/
def FabricGraph.edges_from (g : FabricGraph) (device : String) : List GraphEdge :=
  (g.adjacency.get device).getD []

/-- Append an edge to a device's adjacency list
(`g.adjacency[name].append(edge)`; the key always exists in the builder). -/
def adjAppend (adjacency : Pdict (List GraphEdge)) (name : String) (e : GraphEdge) :
    Pdict (List GraphEdge) :=
  match adjacency.get name with
  | none => adjacency
  | some es => adjacency.insert name (es ++ [e])

/-- `build_fabric_graph`: forward edge for every link, plus a symmetric
reverse edge when the peer is also managed. -/
def build_fabric_graph (store : InventoryStore) : FabricGraph :=
  let nodes := store.all.foldl (fun (acc : Pdict DeviceRecord) d => acc.insert d.name d) []
  let adjacency :=
    nodes.keys.foldl (fun (acc : Pdict (List GraphEdge)) name => acc.insert name []) []
  let adjacency :=
    store.all.foldl
      (fun acc dev =>
        dev.links.foldl
          (fun (acc : Pdict (List GraphEdge)) ln =>
            let acc := adjAppend acc dev.name
              ⟨ln.local_intf, ln.peer_device, ln.peer_intf, ln.kind⟩
            if nodes.hasKey ln.peer_device then
              adjAppend acc ln.peer_device ⟨ln.peer_intf, dev.name, ln.local_intf, ln.kind⟩
            else acc)
          acc)
      adjacency
  ⟨nodes, adjacency⟩

/-! ## External connectivity policy (`fabric/external_policy.py`) -/

/-- `evidence["external_connectivity_counts"]`. -/
structure ExternalCounts where
  border_leaf_count : Nat
  spine_count : Nat
  border_leafs_with_external : Nat
  spines_with_external : Nat
  other_with_external : Nat
deriving DecidableEq, Repr

/-- `evidence["external_connectivity_nodes"]`. -/
structure ExternalNodes where
  border_leafs_with_external : List String
  spines_with_external : List String
  other_with_external : List String
deriving DecidableEq, Repr

/-- Result of external connectivity validation
(`ExternalConnectivityPolicyResult`). -/
structure ExternalConnectivityPolicyResult where
  ok : Bool
  errors : List String
  warnings : List String
  counts : ExternalCounts
  nodes_evidence : ExternalNodes
deriving DecidableEq, Repr

/-- Is a link kind external connectivity (`{external, internet, wan}`)? -/
def isExternalKind (k : LinkKind) : Bool :=
  k = LinkKind.external || k = LinkKind.internet || k = LinkKind.wan

/-- The blocking error emitted on partial spine external connectivity. -/
def partialSpineMsg : String :=
  "partial spine external connectivity detected. "
    ++ "If spines connect externally, all spines must connect externally."

/-- One edge of the classification loop in
`validate_external_connectivity`: on an external edge, append the device
name to the border-leaf / spine / other bucket its role selects. -/
def carrierStep (dev : DeviceRecord) (acc : List String × List String × List String)
    (e : GraphEdge) : List String × List String × List String :=
  if isExternalKind e.kind then
    if dev.role = DeviceRole.border_leaf then
      (acc.1 ++ [dev.name], acc.2.1, acc.2.2)
    else if is_spine_role dev.role then
      (acc.1, acc.2.1 ++ [dev.name], acc.2.2)
    else
      (acc.1, acc.2.1, acc.2.2 ++ [dev.name])
  else acc

/-- The device/edge classification loop of `validate_external_connectivity`:
collect (with repetition, one entry per external edge) the names of
border leafs, spine-like devices and other devices carrying external
edges. -/
def externalCarriers (g : FabricGraph) : List String × List String × List String :=
  g.nodes.values.foldl
    (fun acc dev => (g.edges_from dev.name).foldl (carrierStep dev) acc)
    ([], [], [])

/-- `validate_external_connectivity`: border-leaf model when any
border_leaf exists, else the spine-external all-or-none model. -/
def validate_external_connectivity (g : FabricGraph) :
    ExternalConnectivityPolicyResult :=
  let border_leafs := g.nodes.values.filter (fun d => d.role = DeviceRole.border_leaf)
  let spines := g.nodes.values.filter (fun d => is_spine_role d.role)
  let (border_leafs_with_external, spines_with_external, other_with_external) :=
    externalCarriers g
  let (errors, warnings) :=
    if ¬ border_leafs.isEmpty then
      ((if border_leafs_with_external.isEmpty then
          ["border_leaf role present but no border_leaf has external connectivity"]
        else []),
       (if ¬ spines_with_external.isEmpty then
          ["border_leaf model detected but spines also have external links, verify design intent"]
        else [])
       ++ (if ¬ other_with_external.isEmpty then
            ["non border devices have external links: ["
              ++ ", ".intercalate
                ((sortStrings other_with_external.dedup).map (fun s => "\x27" ++ s ++ "\x27"))
              ++ "]"]
          else []))
    else
      ((if ¬ spines.isEmpty ∧
            0 < spines_with_external.dedup.length ∧
            spines_with_external.dedup.length < spines.length then
          [partialSpineMsg]
        else []),
       [])
  { ok := errors.isEmpty
    errors := errors
    warnings := warnings
    counts :=
      { border_leaf_count := border_leafs.length
        spine_count := spines.length
        border_leafs_with_external := border_leafs_with_external.dedup.length
        spines_with_external := spines_with_external.dedup.length
        other_with_external := other_with_external.dedup.length }
    nodes_evidence :=
      { border_leafs_with_external := sortStrings border_leafs_with_external.dedup
        spines_with_external := sortStrings spines_with_external.dedup
        other_with_external := sortStrings other_with_external.dedup } }

/-! ## Generic lemmas about dict-building folds -/

theorem get_foldl_insert_not_mem {α β : Type} (g : String × β → α) :
    ∀ (l : List (String × β)) (acc : Pdict α) (p : String),
      p ∉ l.map Prod.fst →
      Pdict.get (l.foldl (fun acc pv => acc.insert pv.1 (g pv)) acc) p = acc.get p
  | [], acc, p, _ => rfl
  | (k, v) :: rest, acc, p, hp => by
    simp only [List.map_cons, List.mem_cons, not_or] at hp
    simp only [List.foldl_cons]
    rw [get_foldl_insert_not_mem g rest _ p hp.2,
      Pdict.get_insert_ne acc k p (g (k, v)) (fun he => hp.1 he.symm)]

theorem get_foldl_insert_keyfn {α β : Type} (f : String → α) :
    ∀ (l : List (String × β)) (acc : Pdict α) (p : String),
      p ∈ l.map Prod.fst →
      Pdict.get (l.foldl (fun acc pv => acc.insert pv.1 (f pv.1)) acc) p = some (f p)
  | [], _, p, hp => absurd hp (by simp)
  | (k, v) :: rest, acc, p, hp => by
    simp only [List.foldl_cons]
    by_cases hr : p ∈ rest.map Prod.fst
    · exact get_foldl_insert_keyfn f rest _ p hr
    · simp only [List.map_cons, List.mem_cons] at hp
      rcases hp with hp | hp
      · subst hp
        rw [get_foldl_insert_not_mem (fun pv => f pv.1) rest _ p hr,
          Pdict.get_insert_self]
      · exact absurd hp hr

theorem get_foldl_insert_pair {α : Type} :
    ∀ (l : List (String × α)) (acc : Pdict α),
      (l.map Prod.fst).Nodup →
      ∀ (p : String) (v : α), (p, v) ∈ l →
      Pdict.get (l.foldl (fun acc pv => acc.insert pv.1 pv.2) acc) p = some v
  | [], _, _, p, v, hpv => absurd hpv (by simp)
  | (k, w) :: rest, acc, hnd, p, v, hpv => by
    simp only [List.map_cons, List.nodup_cons] at hnd
    simp only [List.foldl_cons]
    rcases List.mem_cons.mp hpv with hpv | hpv
    · obtain ⟨hp, hv⟩ := Prod.mk.injEq .. ▸ hpv
      subst hp
      subst hv
      rw [get_foldl_insert_not_mem (fun pv => pv.2) rest _ p
          (by simpa using fun hx => hnd.1 hx),
        Pdict.get_insert_self]
    · exact get_foldl_insert_pair rest _ hnd.2 p v hpv

/-! ## Shared concrete fixtures for witnesses and counterexamples -/

/-- A minimal device record fixture (identity/endpoints/location as in the
repository's tests). -/
def sampleDevice (name : String) (role : DeviceRole) (links : List Link := []) :
    DeviceRecord :=
  { name := name, role := role
    identity := ⟨"demo", "demo", "demo", "1", ""⟩
    endpoints := ⟨"10.0.0.1", "10.0.0.1", 57400⟩
    location := ⟨"pod1", "r1", "default"⟩
    links := links }

/-- An inventory holding just one leaf device `leaf1`. -/
def leafInventory : InventoryStore :=
  (InventoryStore.mk []).add (sampleDevice "leaf1" DeviceRole.leaf)

/-- A one-path action fixture. -/
def mkAction (device path : String) (v : JSON) : ChangeAction := ⟨device, [(path, v)], "r"⟩

/-- A one-action intent on `leaf1` (the repository's happy-path scenario). -/
def hostnameIntent : IntentChange :=
  ⟨"c1", "fabric",
    [("actions",
      JSON.arr
        [JSON.obj
          [("device", JSON.str "leaf1"),
            ("model_paths", JSON.obj [("/openconfig/system/config/hostname", JSON.str "leaf1")]),
            ("reason", JSON.str "set hostname")]])],
    [], "one change"⟩

/-- The plan the planner produces from `hostnameIntent` over
`leafInventory`. -/
def hostnamePlan : ChangePlan :=
  ⟨"c1",
    [⟨"leaf1", [("/openconfig/system/config/hostname", JSON.str "leaf1")], "set hostname"⟩],
    ⟨[⟨"path_equals", "leaf1", "/openconfig/system/config/hostname", JSON.str "leaf1"⟩],
      [], 60⟩,
    ⟨true, ["any_verification_failure"]⟩, "low",
    "Plan created from declarative intent. Device count 1. Risk low. Verification checks 1."⟩

/-! ## C10: inventory add semantics -/

/-- Claim C10: the registry holds at most one record per device name; adding
a record whose name equals an already-stored record's name silently replaces
it (the key set does not grow), and `get` afterwards returns the most
recently added record while other names are unaffected. -/
theorem claim_C10 (s : InventoryStore) (d : DeviceRecord)
    (h : s.devices.keys.Nodup) :
    (s.add d).devices.keys.Nodup
    ∧ (s.add d).get d.name = some d
    ∧ (∀ n, n ≠ d.name → (s.add d).get n = s.get n)
    ∧ (s.devices.hasKey d.name = true → (s.add d).devices.keys = s.devices.keys) := by
  refine ⟨Pdict.nodup_keys_insert _ _ _ h, Pdict.get_insert_self _ _ _, ?_, ?_⟩
  · intro n hn
    exact Pdict.get_insert_ne _ _ _ _ (fun he => hn he.symm)
  · intro hk
    exact Pdict.keys_insert_of_has _ _ _ hk

/-- Witness for C10 at a concrete store: a second record named `leaf1`
replaces the first and is returned by `get`. -/
theorem claim_C10_witness :
    leafInventory.devices.keys.Nodup
    ∧ ((leafInventory.add (sampleDevice "leaf1" DeviceRole.spine)).devices.keys.Nodup
      ∧ (leafInventory.add (sampleDevice "leaf1" DeviceRole.spine)).get "leaf1"
          = some (sampleDevice "leaf1" DeviceRole.spine)
      ∧ (∀ n, n ≠ "leaf1" →
          (leafInventory.add (sampleDevice "leaf1" DeviceRole.spine)).get n
            = leafInventory.get n)
      ∧ (leafInventory.devices.hasKey "leaf1" = true →
          (leafInventory.add (sampleDevice "leaf1" DeviceRole.spine)).devices.keys
            = leafInventory.devices.keys)) :=
  ⟨by decide, claim_C10 leafInventory (sampleDevice "leaf1" DeviceRole.spine) (by decide)⟩

/-! ## C6: guard decision rules -/

/-- The guard rules as the amended claim states them: the three rules in
order; the reasons carry forward all of `risk.reasons` plus one string
describing the rule that fired, except that when the default-mode rule fires
with mode `apply` no extra string is appended. -/
def guardRules (config : GuardConfig) (risk : PlanRiskAssessment) : GuardDecision :=
  if risk.risk_level = RiskLevel.high then
    ⟨config.high_risk_mode, config.high_risk_mode = ExecutionMode.apply,
      risk.reasons ++ ["high risk plan guarded by high risk mode"]⟩
  else if config.require_approval_blocks_apply = true ∧ risk.requires_approval = true then
    ⟨ExecutionMode.dry_run, false,
      risk.reasons ++ ["plan requires approval so apply is blocked"]⟩
  else
    ⟨config.default_mode, config.default_mode = ExecutionMode.apply,
      risk.reasons ++
        (match config.default_mode with
          | ExecutionMode.simulate => ["default mode is simulate so apply is not performed"]
          | ExecutionMode.dry_run => ["default mode is dry_run so apply is not performed"]
          | ExecutionMode.apply => [])⟩

/-- Claim C6 (amended): `decide` follows the three rules in order with
`allowed` iff the selected mode is `apply`; the reasons carry forward all of
`risk.reasons` plus one string describing the rule that fired, except when
the default-mode rule fires with mode `apply`, where no extra string is
appended. -/
theorem claim_C6 (config : GuardConfig) (risk : PlanRiskAssessment) :
    guard_decide config risk = guardRules config risk := by
  unfold guard_decide guardRules
  by_cases hh : risk.risk_level = RiskLevel.high
  · simp [hh]
  · by_cases hb : (config.require_approval_blocks_apply && risk.requires_approval) = true
    · obtain ⟨h1, h2⟩ := Bool.and_eq_true _ _ |>.mp hb
      simp [hh, h1, h2]
    · have hprop : ¬(config.require_approval_blocks_apply = true ∧ risk.requires_approval = true) :=
        fun hc => hb (by simp [hc.1, hc.2])
      have hb' : (config.require_approval_blocks_apply && risk.requires_approval) = false := by
        simpa using hb
      cases hm : config.default_mode <;> simp [hh, hb', hprop, hm]

/-! ## Characterization of the in-memory executor's pre-snapshot -/

theorem applyOne_state_get_ne (mm : Pdict (Pdict JSON)) (acc : ApplyResult)
    (act : ChangeAction) (d : String) (h : d ≠ act.device) :
    (applyOneAction mm acc act).exec.state.get d = acc.exec.state.get d :=
  Pdict.get_insert_ne _ _ _ _ (fun he => h he.symm)

theorem applyFold_pre_stable (mm : Pdict (Pdict JSON)) :
    ∀ (acts : List ChangeAction) (acc : ApplyResult) (d : String),
      d ∉ acts.map (·.device) →
      (acts.foldl (applyOneAction mm) acc).pre_snapshot.get d = acc.pre_snapshot.get d
  | [], _, _, _ => rfl
  | act :: rest, acc, d, hd => by
    simp only [List.map_cons, List.mem_cons, not_or] at hd
    simp only [List.foldl_cons]
    rw [applyFold_pre_stable mm rest _ d hd.2]
    exact Pdict.get_insert_ne _ _ _ _ (fun he => hd.1 he.symm)

theorem applyFold_obs_stable (mm : Pdict (Pdict JSON)) :
    ∀ (acts : List ChangeAction) (acc : ApplyResult) (d : String),
      d ∉ acts.map (·.device) →
      (acts.foldl (applyOneAction mm) acc).observed_state.get d
        = acc.observed_state.get d
  | [], _, _, _ => rfl
  | act :: rest, acc, d, hd => by
    simp only [List.map_cons, List.mem_cons, not_or] at hd
    simp only [List.foldl_cons]
    rw [applyFold_obs_stable mm rest _ d hd.2]
    exact Pdict.get_insert_ne _ _ _ _ (fun he => hd.1 he.symm)

/-- The pre-read loop equals a dict build keyed by the path alone. -/
theorem preReadPaths_as_keyfn (ds mp : Pdict JSON) :
    preReadPaths ds mp
      = mp.foldl
          (fun (acc : Pdict JSON) pv =>
            acc.insert pv.1 ((fun q => (ds.get q).getD JSON.null) pv.1))
          [] := by
  unfold preReadPaths
  congr 1
  funext acc pv
  cases h : ds.get pv.1 <;> simp [h]

theorem preReadPaths_get (ds mp : Pdict JSON) (p : String) (hp : p ∈ mp.keys) :
    (preReadPaths ds mp).get p = some ((ds.get p).getD JSON.null) := by
  rw [preReadPaths_as_keyfn]
  exact get_foldl_insert_keyfn (fun q => (ds.get q).getD JSON.null) mp [] p hp

/-- When no device is touched twice, each device's pre-snapshot entry is the
pre-read of its single action against the executor state as it was when the
plan started. -/
theorem applyFold_pre_char (mm : Pdict (Pdict JSON)) :
    ∀ (acts : List ChangeAction) (acc : ApplyResult) (a : ChangeAction),
      (acts.map (·.device)).Nodup → a ∈ acts →
      (acts.foldl (applyOneAction mm) acc).pre_snapshot.get a.device
        = some (preReadPaths ((acc.exec.state.get a.device).getD []) a.model_paths)
  | [], _, a, _, ha => absurd ha (by simp)
  | act :: rest, acc, a, hnd, ha => by
    simp only [List.map_cons, List.nodup_cons] at hnd
    simp only [List.foldl_cons]
    rcases List.mem_cons.mp ha with ha | ha
    · subst ha
      rw [applyFold_pre_stable mm rest _ a.device hnd.1]
      show (acc.pre_snapshot.insert a.device _).get a.device = _
      rw [Pdict.get_insert_self]
    · have hne : a.device ≠ act.device := by
        intro he
        exact hnd.1 (he ▸ List.mem_map_of_mem (·.device) ha)
      rw [applyFold_pre_char mm rest _ a hnd.2 ha,
        applyOne_state_get_ne mm acc act a.device hne]

/-! ## C3: pre-snapshot semantics of the in-memory executor -/

/-- Claim C3 (amended): for every plan in which each device appears in at
most one action, and for every (device, path) touched by an action, the
returned pre-snapshot maps that path to the prior value when the device held
one, and to `None` when it held none — the executor fabricates a `None`
placeholder instead of preserving absence. -/
theorem claim_C3 (ex : InMemoryExecutor) (plan : ChangePlan)
    (hnd : (plan.actions.map (·.device)).Nodup) :
    ∀ a ∈ plan.actions, ∀ p ∈ a.model_paths.keys,
      Pdict.get (((ex.apply_plan plan).pre_snapshot.get a.device).getD []) p
        = some ((Pdict.get ((ex.state.get a.device).getD []) p).getD JSON.null) := by
  intro a ha p hp
  unfold InMemoryExecutor.apply_plan
  rw [applyFold_pre_char ex.mismatch plan.actions ⟨[], [], ex⟩ a hnd ha]
  exact preReadPaths_get _ _ p hp

/-- Executor fixture for C3: device `d` already holds `0` at path `p`. -/
def preValuedExec : InMemoryExecutor := ⟨[], [("d", [("p", JSON.num 0)])]⟩

/-- A plan with two actions on the same device `d` (paths `p` then `q`). -/
def twoActionPlan : ChangePlan :=
  ⟨"p", [mkAction "d" "p" (JSON.num 1), mkAction "d" "q" (JSON.num 2)],
    ⟨[], [], 60⟩, ⟨true, []⟩, "low", "e"⟩

/-- Counterexample for claim C3 as frozen: device `d` holds a prior value at
path `p` and none at path `q`, yet the returned pre-snapshot for `d` has no
key `p` at all (the second action's pre-read overwrote it) and maps `q` to a
fabricated `None` placeholder. -/
theorem claim_C3_counterexample :
    Pdict.get ((preValuedExec.state.get "d").getD []) "p" = some (JSON.num 0)
    ∧ Pdict.get (((preValuedExec.apply_plan twoActionPlan).pre_snapshot.get "d").getD []) "p"
        = none
    ∧ Pdict.get ((preValuedExec.state.get "d").getD []) "q" = none
    ∧ Pdict.get (((preValuedExec.apply_plan twoActionPlan).pre_snapshot.get "d").getD []) "q"
        = some JSON.null :=
  ⟨rfl, rfl, rfl, rfl⟩

/-- A plan touching two distinct devices once each. -/
def twoDevicePlan : ChangePlan :=
  ⟨"p", [mkAction "d" "p" (JSON.num 1), mkAction "e" "q" (JSON.num 2)],
    ⟨[], [], 60⟩, ⟨true, []⟩, "low", "e"⟩

/-- Witness for C3 at a concrete input: the prior value `0` at (`d`, `p`) is
captured, and the absent (`e`, `q`) is recorded as `None`. -/
theorem claim_C3_witness :
    (twoDevicePlan.actions.map (·.device)).Nodup
    ∧ Pdict.get (((preValuedExec.apply_plan twoDevicePlan).pre_snapshot.get "d").getD []) "p"
        = some (JSON.num 0)
    ∧ Pdict.get (((preValuedExec.apply_plan twoDevicePlan).pre_snapshot.get "e").getD []) "q"
        = some JSON.null :=
  ⟨by decide,
    claim_C3 preValuedExec twoDevicePlan (by decide) (mkAction "d" "p" (JSON.num 1))
      (by decide) "p" (by decide),
    claim_C3 preValuedExec twoDevicePlan (by decide) (mkAction "e" "q" (JSON.num 2))
      (by decide) "q" (by decide)⟩

/-! ## C5: rollback plan structure -/

theorem insert_eq_append_of_not_has {α : Type} (d : Pdict α) (k : String) (v : α)
    (h : d.hasKey k = false) : d.insert k v = d ++ [(k, v)] := by
  induction d with
  | nil => rfl
  | cons hd tl ih =>
    obtain ⟨k0, w⟩ := hd
    by_cases h0 : k0 = k
    · simp [Pdict.hasKey, Pdict.get, h0] at h
    · simp only [Pdict.hasKey, Pdict.get, if_neg h0] at h
      simp [Pdict.insert, h0, ih h]

/-- The rollback action `build_rollback_plan` derives from one original
action: keep the snapshot value for each path present in the device
snapshot, drop the action when nothing survives. -/
def rollbackActionOf (pre_snapshot : Pdict (Pdict JSON)) (act : ChangeAction) :
    Option ChangeAction :=
  let device_snapshot := (pre_snapshot.get act.device).getD []
  let entries :=
    act.model_paths.filterMap fun pv =>
      (device_snapshot.get pv.1).map fun v => (pv.1, v)
  if entries.isEmpty then none
  else some ⟨act.device, entries, "rollback to pre change snapshot"⟩

/-- The missing-path entries one original action contributes. -/
def missingPathsOf (pre_snapshot : Pdict (Pdict JSON)) (act : ChangeAction) :
    List String :=
  act.model_paths.filterMap fun pv =>
    match ((pre_snapshot.get act.device).getD []).get pv.1 with
    | none => some (act.device ++ ":" ++ pv.1)
    | some _ => none

theorem rollbackPathsOf_char (ds : Pdict JSON) (dev reason0 : String) :
    ∀ (mp : Pdict JSON) (acc1 : Pdict JSON) (acc2 : List String),
      (mp.map Prod.fst).Nodup →
      (∀ k ∈ mp.map Prod.fst, acc1.hasKey k = false) →
      mp.foldl
          (fun (acc : Pdict JSON × List String) pv =>
            match ds.get pv.1 with
            | none => (acc.1, acc.2 ++ [dev ++ ":" ++ pv.1])
            | some v => (acc.1.insert pv.1 v, acc.2))
          (acc1, acc2)
        = (acc1 ++ mp.filterMap (fun pv => (ds.get pv.1).map fun v => (pv.1, v)),
            acc2 ++ mp.filterMap (fun pv =>
              match ds.get pv.1 with
              | none => some (dev ++ ":" ++ pv.1)
              | some _ => none))
  | [], acc1, acc2, _, _ => by simp
  | (k, v) :: rest, acc1, acc2, hnd, hacc => by
    simp only [List.map_cons, List.nodup_cons] at hnd
    simp only [List.foldl_cons, List.filterMap_cons]
    cases hk : ds.get k with
    | none =>
      simp only
      rw [rollbackPathsOf_char ds dev reason0 rest acc1 (acc2 ++ [dev ++ ":" ++ k]) hnd.2
        (fun q hq => hacc q (List.mem_cons_of_mem _ hq))]
      simp [hk]
    | some w =>
      simp only
      rw [rollbackPathsOf_char ds dev reason0 rest (acc1.insert k w) acc2 hnd.2 ?_]
      · rw [insert_eq_append_of_not_has acc1 k w (hacc k (List.mem_cons_self _ _))]
        simp [hk]
      · intro q hq
        have hqk : k ≠ q := fun he => hnd.1 (he ▸ hq)
        have hgq : (acc1.insert k w).get q = acc1.get q := Pdict.get_insert_ne acc1 k q w hqk
        simp only [Pdict.hasKey, hgq]
        have := hacc q (List.mem_cons_of_mem _ hq)
        simpa [Pdict.hasKey] using this

theorem rollbackPathsOf_eq (S : Pdict (Pdict JSON)) (act : ChangeAction)
    (h : (act.model_paths.map Prod.fst).Nodup) :
    rollbackPathsOf ((S.get act.device).getD []) act
      = (act.model_paths.filterMap
          (fun pv => (((S.get act.device).getD []).get pv.1).map fun v => (pv.1, v)),
        missingPathsOf S act) := by
  unfold rollbackPathsOf missingPathsOf
  have := rollbackPathsOf_char ((S.get act.device).getD []) act.device "" act.model_paths
    [] [] h (fun _ _ => rfl)
  simpa using this

theorem buildRollback_actions_char (S : Pdict (Pdict JSON)) :
    ∀ (acts : List ChangeAction) (acc1 : List ChangeAction) (acc2 : List String),
      (∀ a ∈ acts, (a.model_paths.map Prod.fst).Nodup) →
      (acts.foldl
          (fun (acc : List ChangeAction × List String) act =>
            let device_snapshot := (S.get act.device).getD []
            let (rollback_model_paths, miss) := rollbackPathsOf device_snapshot act
            if rollback_model_paths.isEmpty then (acc.1, acc.2 ++ miss)
            else
              (acc.1 ++ [⟨act.device, rollback_model_paths,
                "rollback to pre change snapshot"⟩], acc.2 ++ miss))
          (acc1, acc2)).1
        = acc1 ++ acts.filterMap (rollbackActionOf S)
  | [], acc1, acc2, _ => by simp
  | act :: rest, acc1, acc2, hnd => by
    have hrest : ∀ a ∈ rest, (a.model_paths.map Prod.fst).Nodup :=
      fun a ha => hnd a (List.mem_cons_of_mem _ ha)
    simp only [List.foldl_cons, List.filterMap_cons]
    rw [rollbackPathsOf_eq S act (hnd act (List.mem_cons_self _ _))]
    cases he : (act.model_paths.filterMap
        (fun pv => (((S.get act.device).getD []).get pv.1).map fun v => (pv.1, v))).isEmpty
    · have hsome : rollbackActionOf S act
          = some ⟨act.device,
              act.model_paths.filterMap
                (fun pv => (((S.get act.device).getD []).get pv.1).map fun v => (pv.1, v)),
              "rollback to pre change snapshot"⟩ := by
        simp only [rollbackActionOf]
        rw [he]
        simp
      rw [hsome]
      simp only [he, Bool.false_eq_true, if_false]
      rw [buildRollback_actions_char S rest _ (acc2 ++ missingPathsOf S act) hrest]
      simp
    · have hnone : rollbackActionOf S act = none := by
        simp only [rollbackActionOf]
        rw [he]
        simp
      rw [hnone]
      simp only [he, if_true]
      rw [buildRollback_actions_char S rest acc1 (acc2 ++ missingPathsOf S act) hrest]

theorem mem_filterMap_keys {β : Type} (mp : Pdict β) (f : String × β → Option (String × β))
    (hf : ∀ pv w, f pv = some w → w.1 = pv.1) (p : String)
    (hp : p ∈ (mp.filterMap f).map Prod.fst) : p ∈ mp.map Prod.fst := by
  simp only [List.mem_map] at hp ⊢
  obtain ⟨w, hw, hwp⟩ := hp
  obtain ⟨pv, hpv, hfp⟩ := List.mem_filterMap.mp hw
  exact ⟨pv, hpv, by rw [← hwp, hf pv w hfp]⟩

/-- Claim C5 (amended): the rollback plan's actions correspond one-to-one,
in order, to the original actions that have at least one snapshot-resolvable
path — at most one rollback action per original action (hence at most one
per device whenever the original plan touches each device at most once) —
and each rollback action targets the same device as its original action with
a set of model paths that is a subset of that action's model paths. -/
theorem claim_C5 (P : ChangePlan) (S : Pdict (Pdict JSON))
    (h : ∀ a ∈ P.actions, (a.model_paths.map Prod.fst).Nodup) :
    (build_rollback_plan P S).plan.actions = P.actions.filterMap (rollbackActionOf S)
    ∧ ∀ rb ∈ (build_rollback_plan P S).plan.actions,
        ∃ a, a ∈ P.actions ∧ rb.device = a.device
          ∧ ∀ p ∈ rb.model_paths.keys, p ∈ a.model_paths.keys := by
  have hchar : (build_rollback_plan P S).plan.actions
      = P.actions.filterMap (rollbackActionOf S) := by
    show (P.actions.foldl _ ([], [])).1 = _
    rw [buildRollback_actions_char S P.actions [] [] h]
    rfl
  refine ⟨hchar, ?_⟩
  intro rb hrb
  rw [hchar] at hrb
  obtain ⟨a, ha, hfa⟩ := List.mem_filterMap.mp hrb
  have hform : rb
      = ⟨a.device,
          a.model_paths.filterMap
            (fun pv => (((S.get a.device).getD []).get pv.1).map fun v => (pv.1, v)),
          "rollback to pre change snapshot"⟩ := by
    simp only [rollbackActionOf] at hfa
    cases he : (a.model_paths.filterMap
        (fun pv => (((S.get a.device).getD []).get pv.1).map fun v => (pv.1, v))).isEmpty
    · rw [he] at hfa
      simp only [Bool.false_eq_true, if_false, Option.some.injEq] at hfa
      exact hfa.symm
    · rw [he] at hfa
      simp at hfa
  refine ⟨a, ha, by rw [hform], ?_⟩
  intro p hp
  rw [hform] at hp
  simp only [Pdict.keys] at hp ⊢
  exact mem_filterMap_keys a.model_paths _
    (fun pv w hw => by
      obtain ⟨v, hv, hvw⟩ := Option.map_eq_some'.mp hw
      rw [← hvw])
    p hp

/-- Snapshot fixture for C5 holding prior values for both paths of
`twoActionPlan`. -/
def twoPathSnapshot : Pdict (Pdict JSON) :=
  [("d", [("p", JSON.num 9), ("q", JSON.num 8)])]

/-- Counterexample for claim C5 as frozen: a plan with two actions on the
same device `d` produces a rollback plan with two actions for `d`, not at
most one. -/
theorem claim_C5_counterexample :
    (build_rollback_plan twoActionPlan twoPathSnapshot).plan.actions
      = [⟨"d", [("p", JSON.num 9)], "rollback to pre change snapshot"⟩,
          ⟨"d", [("q", JSON.num 8)], "rollback to pre change snapshot"⟩]
    ∧ (build_rollback_plan twoActionPlan twoPathSnapshot).plan.actions.countP
        (fun a => a.device == "d") = 2 :=
  ⟨rfl, rfl⟩

/-- Witness for C5 at a concrete input: with per-action duplicate-free
paths, the rollback actions are the snapshot-filtered originals. -/
theorem claim_C5_witness :
    (∀ a ∈ twoDevicePlan.actions, (a.model_paths.map Prod.fst).Nodup)
    ∧ ((build_rollback_plan twoDevicePlan twoPathSnapshot).plan.actions
        = twoDevicePlan.actions.filterMap (rollbackActionOf twoPathSnapshot)
      ∧ ∀ rb ∈ (build_rollback_plan twoDevicePlan twoPathSnapshot).plan.actions,
          ∃ a, a ∈ twoDevicePlan.actions ∧ rb.device = a.device
            ∧ ∀ p ∈ rb.model_paths.keys, p ∈ a.model_paths.keys) :=
  ⟨by decide, claim_C5 twoDevicePlan twoPathSnapshot (by decide)⟩

/-! ## C9: simulate-mode observed state loses earlier actions -/

theorem evalChecks_failures_mono (observed : Pdict (Pdict JSON)) (c : Check)
    (rest : List Check) (idx : Nat) (msg : String)
    (h : msg ∈ (evalChecks observed rest (idx + 1)).1) :
    msg ∈ (evalChecks observed (c :: rest) idx).1 := by
  unfold evalChecks
  by_cases h1 : c.ctype ≠ "path_equals"
  · simp only [if_pos h1]
    exact List.mem_cons_of_mem _ h
  · simp only [if_neg h1]
    by_cases h2 : ¬ ((observed.get c.device).getD []).hasKey c.path
    · simp only [if_pos h2]
      exact List.mem_cons_of_mem _ h
    · simp only [if_neg h2]
      by_cases h3 : (((observed.get c.device).getD []).get c.path).getD JSON.null ≠ c.expected
      · simp only [if_pos h3]
        exact List.mem_cons_of_mem _ h
      · simp only [if_neg h3]
        exact h

theorem evalChecks_missing_mem (observed : Pdict (Pdict JSON)) :
    ∀ (checks : List Check) (idx : Nat) (c : Check), c ∈ checks →
      c.ctype = "path_equals" →
      ((observed.get c.device).getD []).hasKey c.path = false →
      ("missing observed path for device " ++ c.device ++ ": " ++ c.path)
        ∈ (evalChecks observed checks idx).1
  | [], _, c, hc, _, _ => absurd hc (by simp)
  | c0 :: rest, idx, c, hc, hty, hmiss => by
    rcases List.mem_cons.mp hc with hc | hc
    · subst hc
      unfold evalChecks
      have h1 : ¬ c.ctype ≠ "path_equals" := fun hne => hne hty
      simp only [if_neg h1]
      have h2 : ¬ ((observed.get c.device).getD []).hasKey c.path := by
        rw [hmiss]
        simp
      simp only [if_pos h2]
      exact List.mem_cons_self _ _
    · exact evalChecks_failures_mono observed c0 rest idx _
        (evalChecks_missing_mem observed rest (idx + 1) c hc hty hmiss)

/-- Claim C9: in simulate mode the engine assigns each action's
`model_paths` as the device's whole observed entry, so a later action on the
same device overwrites the earlier one: for a plan of two actions on the
same device with disjoint non-empty path sets, whose verification spec is
the planner's spec for those actions, simulate-mode verification reports a
missing-observed-path failure for every path of the earlier action and
fails overall — even though every expected value came from the plan
itself. -/
theorem claim_C9 (config : PlannerConfig) (plan : ChangePlan) (a1 a2 : ChangeAction)
    (hacts : plan.actions = [a1, a2])
    (hver : plan.verification = build_verification config [a1, a2])
    (hdev : a1.device = a2.device)
    (hdisj : ∀ p ∈ a1.model_paths.keys, p ∉ a2.model_paths.keys)
    (h1 : a1.model_paths ≠ []) :
    (∀ p ∈ a1.model_paths.keys,
      ("missing observed path for device " ++ a1.device ++ ": " ++ p)
        ∈ (evaluate_verification plan.verification (simulate_observed_state plan)).failures)
    ∧ (evaluate_verification plan.verification (simulate_observed_state plan)).ok = false := by
  have hobs : simulate_observed_state plan = [(a1.device, a2.model_paths)] := by
    unfold simulate_observed_state
    rw [hacts]
    simp only [List.foldl_cons, List.foldl_nil]
    show Pdict.insert [(a1.device, a1.model_paths)] a2.device a2.model_paths
      = [(a1.device, a2.model_paths)]
    rw [← hdev]
    simp [Pdict.insert]
  have hmem : ∀ p ∈ a1.model_paths.keys,
      ("missing observed path for device " ++ a1.device ++ ": " ++ p)
        ∈ (evaluate_verification plan.verification (simulate_observed_state plan)).failures := by
    intro p hp
    obtain ⟨pv, hpv, hpe⟩ := List.mem_map.mp hp
    have hcheck : Check.mk "path_equals" a1.device p pv.2
        ∈ (build_verification config [a1, a2]).checks := by
      unfold build_verification
      simp only [List.flatMap_cons, List.flatMap_nil]
      refine List.mem_append_left _ ?_
      refine List.mem_map.mpr ⟨pv, hpv, ?_⟩
      rw [hpe]
    rw [hver, hobs]
    show _ ∈ (evalChecks [(a1.device, a2.model_paths)]
      (build_verification config [a1, a2]).checks 0).1
    exact evalChecks_missing_mem [(a1.device, a2.model_paths)]
      (build_verification config [a1, a2]).checks 0
      (Check.mk "path_equals" a1.device p pv.2) hcheck rfl
      (by
        show (Pdict.get ((Pdict.get [(a1.device, a2.model_paths)] a1.device).getD [])
          p).isSome = false
        have : Pdict.get [(a1.device, a2.model_paths)] a1.device = some a2.model_paths := by
          simp [Pdict.get]
        rw [this]
        show (a2.model_paths.get p).isSome = false
        rw [Pdict.get_eq_none_of_not_mem_keys a2.model_paths p (hdisj p hp)]
        rfl)
  refine ⟨hmem, ?_⟩
  obtain ⟨p0, hp0⟩ : ∃ p, p ∈ a1.model_paths.keys := by
    cases hmp : a1.model_paths with
    | nil => exact absurd hmp h1
    | cons pv rest => exact ⟨pv.1, by simp [Pdict.keys]⟩
  have hne := List.ne_nil_of_mem (hmem p0 hp0)
  show (evaluate_verification plan.verification (simulate_observed_state plan)).failures.isEmpty
    = false
  cases hf : (evaluate_verification plan.verification (simulate_observed_state plan)).failures
  · exact absurd hf hne
  · rfl

/-- Two-action fixture for the C9 witness: both actions touch `d`, with
disjoint single paths. -/
def simAction1 : ChangeAction := mkAction "d" "p" (JSON.num 1)

/-- Second action of the C9 witness fixture. -/
def simAction2 : ChangeAction := mkAction "d" "q" (JSON.num 2)

/-- The planner-shaped plan over `simAction1` and `simAction2`. -/
def simPlan : ChangePlan :=
  ⟨"sim", [simAction1, simAction2], build_verification {} [simAction1, simAction2],
    ⟨true, ["any_verification_failure"]⟩, "low", "e"⟩

/-- Witness for C9 at a concrete input: the earlier action's path `p` is
reported missing and the simulated verification fails. -/
theorem claim_C9_witness :
    (simPlan.actions = [simAction1, simAction2]
      ∧ simPlan.verification = build_verification {} [simAction1, simAction2]
      ∧ simAction1.device = simAction2.device
      ∧ (∀ p ∈ simAction1.model_paths.keys, p ∉ simAction2.model_paths.keys)
      ∧ simAction1.model_paths ≠ [])
    ∧ ((∀ p ∈ simAction1.model_paths.keys,
        ("missing observed path for device " ++ simAction1.device ++ ": " ++ p)
          ∈ (evaluate_verification simPlan.verification
              (simulate_observed_state simPlan)).failures)
      ∧ (evaluate_verification simPlan.verification
          (simulate_observed_state simPlan)).ok = false) :=
  ⟨⟨rfl, rfl, rfl, by decide, by decide⟩,
    claim_C9 {} simPlan simAction1 simAction2 rfl rfl rfl (by decide) (by decide)⟩

/-! ## C4: verification of a faithfully applied plan -/

theorem writePaths_get (ds mp : Pdict JSON) (hnd : (mp.map Prod.fst).Nodup)
    (p : String) (v : JSON) (hpv : (p, v) ∈ mp) :
    (writePaths ds mp).get p = some v :=
  get_foldl_insert_pair mp ds hnd p v hpv

theorem readBackPaths_get (ds mp : Pdict JSON) (p : String) (hp : p ∈ mp.map Prod.fst) :
    (readBackPaths ds mp).get p = some ((ds.get p).getD JSON.null) :=
  get_foldl_insert_keyfn (fun q => (ds.get q).getD JSON.null) mp [] p hp

theorem injectMismatch_empty (device : String) (device_obs : Pdict JSON) :
    injectMismatch [] device device_obs = device_obs := rfl

/-- When no device is touched twice, each device's observed entry is the
mismatch-adjusted read-back of its single action. -/
theorem applyFold_obs_char (mm : Pdict (Pdict JSON)) :
    ∀ (acts : List ChangeAction) (acc : ApplyResult) (a : ChangeAction),
      (acts.map (·.device)).Nodup → a ∈ acts →
      (acts.foldl (applyOneAction mm) acc).observed_state.get a.device
        = some (injectMismatch mm a.device
            (readBackPaths (writePaths ((acc.exec.state.get a.device).getD []) a.model_paths)
              a.model_paths))
  | [], _, a, _, ha => absurd ha (by simp)
  | act :: rest, acc, a, hnd, ha => by
    simp only [List.map_cons, List.nodup_cons] at hnd
    simp only [List.foldl_cons]
    rcases List.mem_cons.mp ha with ha | ha
    · subst ha
      rw [applyFold_obs_stable mm rest _ a.device hnd.1]
      show (acc.observed_state.insert a.device _).get a.device = _
      rw [Pdict.get_insert_self]
    · have hne : a.device ≠ act.device := by
        intro he
        exact hnd.1 (he ▸ List.mem_map_of_mem (·.device) ha)
      rw [applyFold_obs_char mm rest _ a hnd.2 ha,
        applyOne_state_get_ne mm acc act a.device hne]

theorem evalChecks_all_pass (observed : Pdict (Pdict JSON)) :
    ∀ (checks : List Check) (idx : Nat),
      (∀ c ∈ checks, c.ctype = "path_equals"
        ∧ ((observed.get c.device).getD []).get c.path = some c.expected) →
      (evalChecks observed checks idx).1 = []
  | [], _, _ => rfl
  | c0 :: rest, idx, h => by
    obtain ⟨hty, hval⟩ := h c0 (List.mem_cons_self _ _)
    unfold evalChecks
    have h1 : ¬ c0.ctype ≠ "path_equals" := fun hne => hne hty
    simp only [if_neg h1]
    have h2 : ¬ ¬ ((observed.get c0.device).getD []).hasKey c0.path := by
      simp [Pdict.hasKey, hval]
    simp only [if_neg h2]
    have h3 : ¬ ((((observed.get c0.device).getD []).get c0.path).getD JSON.null
        ≠ c0.expected) := by
      rw [hval]
      simp
    simp only [if_neg h3]
    exact evalChecks_all_pass observed rest (idx + 1)
      (fun c hc => h c (List.mem_cons_of_mem _ hc))

/-- A successful `plan_change` always pairs the plan's verification spec
with its own actions. -/
theorem plan_change_verification (config : PlannerConfig) (intent : IntentChange)
    (inventory : InventoryStore) (plan : ChangePlan)
    (h : plan_change config intent inventory = .ok plan) :
    plan.verification = build_verification config plan.actions := by
  unfold plan_change at h
  cases hp : parse_actions intent.desired with
  | error m => rw [hp] at h; simp at h
  | ok actions =>
    rw [hp] at h
    dsimp only at h
    cases hv : validate_actions_exist_in_inventory actions inventory with
    | error m => rw [hv] at h; simp at h
    | ok u =>
      rw [hv] at h
      dsimp only at h
      simp only [Except.ok.injEq] at h
      rw [← h]

/-- Claim C4 (amended): for every intent accepted by the planner whose plan
touches each device in at most one action (with duplicate-free paths per
action, as Python dicts guarantee), evaluating the plan's verification spec
against the observed state returned by the in-memory executor with no
mismatch injection yields `ok = true`. -/
theorem claim_C4 (config : PlannerConfig) (intent : IntentChange)
    (inventory : InventoryStore) (ex : InMemoryExecutor) (plan : ChangePlan)
    (hplan : plan_change config intent inventory = .ok plan)
    (hdev : (plan.actions.map (·.device)).Nodup)
    (hkeys : ∀ a ∈ plan.actions, (a.model_paths.map Prod.fst).Nodup)
    (hmm : ex.mismatch = []) :
    (evaluate_verification plan.verification (ex.apply_plan plan).observed_state).ok
      = true := by
  have hver := plan_change_verification config intent inventory plan hplan
  have hpass : ∀ c ∈ plan.verification.checks, c.ctype = "path_equals"
      ∧ (((ex.apply_plan plan).observed_state.get c.device).getD []).get c.path
          = some c.expected := by
    intro c hc
    rw [hver] at hc
    unfold build_verification at hc
    obtain ⟨a, ha, hca⟩ := List.mem_flatMap.mp hc
    obtain ⟨pv, hpv, hcpv⟩ := List.mem_map.mp hca
    refine ⟨by rw [← hcpv], ?_⟩
    have hobs := applyFold_obs_char ex.mismatch plan.actions ⟨[], [], ex⟩ a hdev ha
    rw [hmm] at hobs
    show (((ex.apply_plan plan).observed_state.get c.device).getD []).get c.path
      = some c.expected
    have hcd : c.device = a.device := by rw [← hcpv]
    have hcp : c.path = pv.1 := by rw [← hcpv]
    have hce : c.expected = pv.2 := by rw [← hcpv]
    rw [hcd, hcp, hce]
    show (((plan.actions.foldl (applyOneAction ex.mismatch) ⟨[], [], ex⟩).observed_state.get
      a.device).getD []).get pv.1 = some pv.2
    rw [hmm, hobs, injectMismatch_empty]
    show (readBackPaths _ a.model_paths).get pv.1 = some pv.2
    rw [readBackPaths_get _ a.model_paths pv.1 (List.mem_map_of_mem Prod.fst hpv),
      writePaths_get _ a.model_paths (hkeys a ha) pv.1 pv.2 hpv]
    rfl
  show (evaluate_verification plan.verification (ex.apply_plan plan).observed_state).failures.isEmpty = true
  show (evalChecks (ex.apply_plan plan).observed_state plan.verification.checks 0).1.isEmpty = true
  rw [evalChecks_all_pass (ex.apply_plan plan).observed_state plan.verification.checks 0 hpass]
  rfl

/-- Witness for C4 at the repository's happy-path scenario: the hostname
plan verifies cleanly after a faithful in-memory apply. -/
theorem claim_C4_witness :
    plan_change {} hostnameIntent leafInventory = .ok hostnamePlan
    ∧ (hostnamePlan.actions.map (·.device)).Nodup
    ∧ (∀ a ∈ hostnamePlan.actions, (a.model_paths.map Prod.fst).Nodup)
    ∧ (InMemoryExecutor.mk [] []).mismatch = []
    ∧ (evaluate_verification hostnamePlan.verification
        ((InMemoryExecutor.mk [] []).apply_plan hostnamePlan).observed_state).ok = true :=
  ⟨by rfl, by decide, by decide, by rfl,
    claim_C4 {} hostnameIntent leafInventory (InMemoryExecutor.mk [] []) hostnamePlan
      (by rfl) (by decide) (by decide) (by rfl)⟩

/-- A valid intent with two actions on the same device `leaf1`, touching
disjoint paths `p` and `q`. -/
def twoActionIntent : IntentChange :=
  ⟨"c4", "fabric",
    [("actions",
      JSON.arr
        [JSON.obj [("device", JSON.str "leaf1"), ("model_paths", JSON.obj [("p", JSON.num 1)])],
          JSON.obj [("device", JSON.str "leaf1"),
            ("model_paths", JSON.obj [("q", JSON.num 2)])]])],
    [], "two actions"⟩

/-- Counterexample for claim C4 as frozen: a planner-accepted intent with
two actions on the same device makes the executor's per-device observed
entry keep only the later action's paths, so verification of the earlier
action's check fails even though the executor wrote and returned every
value faithfully. -/
theorem claim_C4_counterexample :
    (plan_change {} twoActionIntent leafInventory).toOption.map
        (fun plan =>
          (evaluate_verification plan.verification
            ((InMemoryExecutor.mk [] []).apply_plan plan).observed_state).ok)
      = some false := rfl

/-! ## C1: blast-radius score -/

theorem insertSorted_length (s : String) :
    ∀ l : List String, (insertSorted s l).length = l.length + 1
  | [] => rfl
  | t :: ts => by
    unfold insertSorted
    by_cases h : strLe s t = true
    · simp [h]
    · simp only [Bool.not_eq_true] at h
      simp only [h, Bool.false_eq_true, if_false, List.length_cons,
        insertSorted_length s ts]

theorem sortStrings_length : ∀ l : List String, (sortStrings l).length = l.length
  | [] => rfl
  | s :: ss => by
    unfold sortStrings
    rw [insertSorted_length, sortStrings_length ss]
    rfl

/-- Does a lowered path contain `bgp`? -/
def pathHasBgp (p : String) : Bool := strContains (pyLower p) "bgp"

/-- Does a lowered path contain `ospf`? -/
def pathHasOspf (p : String) : Bool := strContains (pyLower p) "ospf"

/-- Does a lowered path contain `external`, `internet` or `wan`? -/
def pathHasExternal (p : String) : Bool :=
  strContains (pyLower p) "external" || strContains (pyLower p) "internet"
    || strContains (pyLower p) "wan"

/-- Does any path of the action trip the `bgp` flag? -/
def actionHasBgp (a : ChangeAction) : Bool := a.model_paths.keys.any pathHasBgp

/-- Does any path of the action trip the `ospf` flag? -/
def actionHasOspf (a : ChangeAction) : Bool := a.model_paths.keys.any pathHasOspf

/-- Does any path of the action trip the external flag? -/
def actionHasExternal (a : ChangeAction) : Bool := a.model_paths.keys.any pathHasExternal

/-- Is the action's device classified super-spine by the risk loop? -/
def actionIsSuperSpine (inventory : InventoryStore) (a : ChangeAction) : Bool :=
  match inventory.get a.device with
  | some d => is_super_spine_role d.role
  | none => false

/-- Is the action's device classified spine-like by the risk loop? -/
def actionIsSpine (inventory : InventoryStore) (a : ChangeAction) : Bool :=
  match inventory.get a.device with
  | some d => !is_super_spine_role d.role && is_spine_role d.role
  | none => false

/-- Is the action's device classified leaf-like by the risk loop? -/
def actionIsLeaf (inventory : InventoryStore) (a : ChangeAction) : Bool :=
  match inventory.get a.device with
  | some d => !is_super_spine_role d.role && !is_spine_role d.role && is_leaf_role d.role
  | none => false

/-- Is the action's device counted as unknown by the risk loop (missing
from inventory, or none of the three role classes)? -/
def actionIsUnknown (inventory : InventoryStore) (a : ChangeAction) : Bool :=
  match inventory.get a.device with
  | some d => !is_super_spine_role d.role && !is_spine_role d.role && !is_leaf_role d.role
  | none => true

theorem riskScanPaths_char :
    ∀ (paths : List String) (s : RiskScan),
      riskScanPaths s paths
        = { s with
            touches_bgp := s.touches_bgp || paths.any pathHasBgp
            touches_ospf := s.touches_ospf || paths.any pathHasOspf
            touches_external := s.touches_external || paths.any pathHasExternal }
  | [], s => by simp [riskScanPaths]
  | p :: rest, s => by
    show riskScanPaths _ rest = _
    rw [riskScanPaths_char rest]
    simp [pathHasBgp, pathHasOspf, pathHasExternal, Bool.or_assoc]

theorem riskScan_char (inventory : InventoryStore) :
    ∀ (acts : List ChangeAction) (s : RiskScan),
      acts.foldl (riskScanAction inventory) s
        = ⟨s.leaf_count + acts.countP (actionIsLeaf inventory),
            s.spine_count + acts.countP (actionIsSpine inventory),
            s.super_spine_count + acts.countP (actionIsSuperSpine inventory),
            s.unknown_count + acts.countP (actionIsUnknown inventory),
            s.touches_external || acts.any actionHasExternal,
            s.touches_bgp || acts.any actionHasBgp,
            s.touches_ospf || acts.any actionHasOspf⟩
  | [], s => by simp
  | a :: rest, s => by
    simp only [List.foldl_cons]
    rw [riskScan_char inventory rest]
    unfold riskScanAction
    rw [riskScanPaths_char]
    simp only [List.countP_cons, List.any_cons]
    cases hdev : inventory.get a.device with
    | none =>
      simp only [actionIsLeaf, actionIsSpine, actionIsSuperSpine, actionIsUnknown,
        actionHasExternal, actionHasBgp, actionHasOspf, hdev]
      simp [RiskScan.mk.injEq, Bool.or_assoc]
      omega
    | some d =>
      simp only [actionIsLeaf, actionIsSpine, actionIsSuperSpine, actionIsUnknown,
        actionHasExternal, actionHasBgp, actionHasOspf, hdev]
      by_cases hss : is_super_spine_role d.role
      · simp [hss, RiskScan.mk.injEq, Bool.or_assoc]
        omega
      · by_cases hsp : is_spine_role d.role
        · simp [hss, hsp, RiskScan.mk.injEq, Bool.or_assoc]
          omega
        · by_cases hlf : is_leaf_role d.role
          · simp [hss, hsp, hlf, RiskScan.mk.injEq, Bool.or_assoc]
            omega
          · simp [hss, hsp, hlf, RiskScan.mk.injEq, Bool.or_assoc]
            omega

theorem if_countP_ne_zero {α : Type} (l : List α) (p : α → Bool) (n : Nat) :
    (if l.countP p ≠ 0 then n else 0) = (if l.any p = true then n else 0) := by
  by_cases h : l.any p = true
  · obtain ⟨a, ha, hpa⟩ := List.any_eq_true.mp h
    have : 0 < l.countP p := List.countP_pos_iff.mpr ⟨a, ha, hpa⟩
    rw [if_pos (Nat.pos_iff_ne_zero.mp this), if_pos h]
  · have : l.countP p = 0 := by
      rw [List.countP_eq_zero]
      intro a ha hpa
      exact h (List.any_eq_true.mpr ⟨a, ha, hpa⟩)
    rw [if_neg (by simp [this]), if_neg h]

/-- Claim C1 (amended): the blast-radius score equals 10 times the count of
unique touched devices, plus 15 per action whose device is spine-like, plus
25 per action whose device is super-spine (actions counted with
multiplicity, not unique devices), plus a flat 20 when at least one action's
device is missing from inventory or of no known role class, plus 30/20/15
for the external/bgp/ospf path flags. -/
theorem claim_C1 (plan : ChangePlan) (inventory : InventoryStore) :
    (assess_plan_risk plan inventory).blast_radius_score
      = 10 * (plan.actions.map (·.device)).dedup.length
        + 15 * plan.actions.countP (actionIsSpine inventory)
        + 25 * plan.actions.countP (actionIsSuperSpine inventory)
        + (if plan.actions.any (actionIsUnknown inventory) = true then 20 else 0)
        + (if plan.actions.any actionHasExternal = true then 30 else 0)
        + (if plan.actions.any actionHasBgp = true then 20 else 0)
        + (if plan.actions.any actionHasOspf = true then 15 else 0) := by
  show (sortStrings (plan.actions.map (·.device)).dedup).length * 10
      + (plan.actions.foldl (riskScanAction inventory) {}).spine_count * 15
      + (plan.actions.foldl (riskScanAction inventory) {}).super_spine_count * 25
      + (if (plan.actions.foldl (riskScanAction inventory) {}).unknown_count ≠ 0
          then 20 else 0)
      + (if (plan.actions.foldl (riskScanAction inventory) {}).touches_external
          then 30 else 0)
      + (if (plan.actions.foldl (riskScanAction inventory) {}).touches_bgp then 20 else 0)
      + (if (plan.actions.foldl (riskScanAction inventory) {}).touches_ospf then 15 else 0)
      = _
  rw [riskScan_char inventory plan.actions {}]
  show (sortStrings (plan.actions.map (·.device)).dedup).length * 10
      + (0 + plan.actions.countP (actionIsSpine inventory)) * 15
      + (0 + plan.actions.countP (actionIsSuperSpine inventory)) * 25
      + (if (0 + plan.actions.countP (actionIsUnknown inventory)) ≠ 0 then 20 else 0)
      + (if (false || plan.actions.any actionHasExternal) then 30 else 0)
      + (if (false || plan.actions.any actionHasBgp) then 20 else 0)
      + (if (false || plan.actions.any actionHasOspf) then 15 else 0)
      = _
  simp only [Nat.zero_add, Bool.false_or, sortStrings_length, if_countP_ne_zero]
  ring

/-- An inventory holding one spine device `s`. -/
def spineInventory : InventoryStore :=
  (InventoryStore.mk []).add (sampleDevice "s" DeviceRole.spine)

/-- A plan with two actions on spine `s` and two on a device `x` that is
missing from the inventory. -/
def repeatDevicePlan : ChangePlan :=
  ⟨"p1",
    [mkAction "s" "/a" (JSON.num 1), mkAction "s" "/b" (JSON.num 1),
      mkAction "x" "/c" (JSON.num 1), mkAction "x" "/d" (JSON.num 1)],
    ⟨[], [], 60⟩, ⟨true, []⟩, "low", "e"⟩

/-- The blast-radius formula exactly as the frozen claim words it: 10 per
unique touched device, 15 per touched spine-like device, 25 per touched
super-spine device, 20 per touched unknown-role device, plus the three path
flags. -/
def claimBlastScore (plan : ChangePlan) (inventory : InventoryStore) : Nat :=
  10 * (plan.actions.map (·.device)).dedup.length
    + 15 * ((plan.actions.filter (actionIsSpine inventory)).map (·.device)).dedup.length
    + 25 * ((plan.actions.filter (actionIsSuperSpine inventory)).map (·.device)).dedup.length
    + 20 * ((plan.actions.filter (actionIsUnknown inventory)).map (·.device)).dedup.length
    + (if plan.actions.any actionHasExternal = true then 30 else 0)
    + (if plan.actions.any actionHasBgp = true then 20 else 0)
    + (if plan.actions.any actionHasOspf = true then 15 else 0)

/-- Counterexample for claim C1 as frozen: on a plan with two actions on one
spine and two actions on one unknown device, the claim's formula gives 55
(15 for the one touched spine-like device, 20 for the one touched
unknown-role device) but the code scores 70 (spine actions counted with
multiplicity, flat 20 for unknown). -/
theorem claim_C1_counterexample :
    claimBlastScore repeatDevicePlan spineInventory = 55
    ∧ (assess_plan_risk repeatDevicePlan spineInventory).blast_radius_score = 70 :=
  ⟨by decide, by decide⟩

/-! ## C7: planner validation failures -/

/-- Does an `actions`-list entry fail the planner's per-entry shape checks
(not a dict, device missing / not a string / empty, or `model_paths`
missing / not a dict / empty)? -/
def badActionEntry (raw : JSON) : Bool :=
  match raw with
  | JSON.obj fields =>
    (match Pdict.get fields "device" with
      | some (JSON.str d) => d = ""
      | _ => true)
    || (match Pdict.get fields "model_paths" with
        | some (JSON.obj mp) => mp.isEmpty
        | _ => true)
  | _ => true

/-- The devices referenced by the actions that are missing from the
inventory, in action order. -/
def missingDevices (inventory : InventoryStore) (actions : List ChangeAction) :
    List String :=
  (actions.filter (fun a => (inventory.get a.device).isNone)).map (·.device)

theorem parseActionItems_error_of_bad :
    ∀ (raws : List JSON) (idx : Nat),
      (∃ raw ∈ raws, badActionEntry raw = true) →
      ∃ m, parseActionItems raws idx = .error m
  | [], _, h => absurd h (by simp)
  | raw :: rest, idx, h => by
    unfold parseActionItems
    cases raw with
    | obj fields =>
      dsimp only
      cases hdev : Pdict.get fields "device" with
      | none => exact ⟨_, rfl⟩
      | some jdev =>
        cases jdev with
        | str d =>
          by_cases hd : d = ""
          · simp only [hdev, hd, if_pos rfl]
            exact ⟨_, rfl⟩
          · simp only [hdev, if_neg hd]
            cases hmp : Pdict.get fields "model_paths" with
            | none => exact ⟨_, rfl⟩
            | some jmp =>
              cases jmp with
              | obj mp =>
                cases hemp : mp.isEmpty
                · simp only [hmp, hemp, Bool.false_eq_true, if_false]
                  have hbadrest : ∃ r ∈ rest, badActionEntry r = true := by
                    obtain ⟨r, hr, hbad⟩ := h
                    rcases List.mem_cons.mp hr with hr | hr
                    · subst hr
                      exfalso
                      simp only [badActionEntry, hdev, hmp, hemp] at hbad
                      exact absurd hbad (by simp [hd])
                    · exact ⟨r, hr, hbad⟩
                  obtain ⟨m, hm⟩ := parseActionItems_error_of_bad rest (idx + 1) hbadrest
                  rw [hm]
                  exact ⟨m, rfl⟩
                · simp only [hmp, hemp, if_true]
                  exact ⟨_, rfl⟩
              | null => exact ⟨_, rfl⟩
              | bool b => exact ⟨_, rfl⟩
              | num n => exact ⟨_, rfl⟩
              | str s => exact ⟨_, rfl⟩
              | arr xs => exact ⟨_, rfl⟩
        | null => exact ⟨_, rfl⟩
        | bool b => exact ⟨_, rfl⟩
        | num n => exact ⟨_, rfl⟩
        | arr xs => exact ⟨_, rfl⟩
        | obj fs => exact ⟨_, rfl⟩
    | null => exact ⟨_, rfl⟩
    | bool b => exact ⟨_, rfl⟩
    | num n => exact ⟨_, rfl⟩
    | str s => exact ⟨_, rfl⟩
    | arr xs => exact ⟨_, rfl⟩

/-- Claim C7 (amended): in the actions-list form, any entry lacking a
non-empty device string or a non-empty path-to-value mapping makes
`plan_change` fail; and whenever the parsed actions reference devices absent
from the inventory, `plan_change` fails with the error message listing the
missing device names sorted and deduplicated. (In the single-action
shorthand form the device string's emptiness is not checked, so an empty
device name fails only when it is absent from the inventory.) -/
theorem claim_C7 (config : PlannerConfig) (intent : IntentChange)
    (inventory : InventoryStore) :
    (∀ raws, intent.desired.get "actions" = some (JSON.arr raws) →
      (∃ raw ∈ raws, badActionEntry raw = true) →
      ∃ m, plan_change config intent inventory = .error m)
    ∧ (∀ actions, parse_actions intent.desired = .ok actions →
        missingDevices inventory actions ≠ [] →
        plan_change config intent inventory
          = .error ("plan references devices not present in inventory: "
              ++ ", ".intercalate (sortStrings (missingDevices inventory actions).dedup))) := by
  constructor
  · intro raws hraws hbad
    have hhas : intent.desired.hasKey "actions" = true := by
      simp [Pdict.hasKey, hraws]
    obtain ⟨m, hm⟩ := parseActionItems_error_of_bad raws 0 hbad
    have hparse : parse_actions intent.desired = .error m := by
      unfold parse_actions
      rw [if_pos hhas, hraws]
      exact hm
    refine ⟨m, ?_⟩
    unfold plan_change
    rw [hparse]
  · intro actions hparse hmiss
    unfold plan_change
    rw [hparse]
    dsimp only
    have hval : validate_actions_exist_in_inventory actions inventory
        = .error ("plan references devices not present in inventory: "
            ++ ", ".intercalate (sortStrings (missingDevices inventory actions).dedup)) := by
      unfold validate_actions_exist_in_inventory
      dsimp only
      have : ((actions.filter (fun a => (inventory.get a.device).isNone)).map
          (·.device)).isEmpty = false := by
        cases hl : (actions.filter (fun a => (inventory.get a.device).isNone)).map (·.device)
        · exact absurd hl hmiss
        · rfl
      rw [this]
      rfl
    rw [hval]

/-- An inventory with two leaves `a1` and `b1`. -/
def twoLeafInventory : InventoryStore :=
  ((InventoryStore.mk []).add (sampleDevice "a1" DeviceRole.leaf)).add
    (sampleDevice "b1" DeviceRole.leaf)

/-- An intent referencing unknown devices `y`, `x`, `y` (unsorted, with a
duplicate) alongside the known `a1`. -/
def unknownDevicesIntent : IntentChange :=
  ⟨"c7", "fabric",
    [("actions",
      JSON.arr
        [JSON.obj [("device", JSON.str "y"), ("model_paths", JSON.obj [("p", JSON.num 1)])],
          JSON.obj [("device", JSON.str "x"), ("model_paths", JSON.obj [("p", JSON.num 1)])],
          JSON.obj [("device", JSON.str "a1"), ("model_paths", JSON.obj [("p", JSON.num 1)])],
          JSON.obj [("device", JSON.str "y"),
            ("model_paths", JSON.obj [("q", JSON.num 2)])]])],
    [], "unknown devices"⟩

/-- The actions parsed from `unknownDevicesIntent`. -/
def unknownDevicesActions : List ChangeAction :=
  [⟨"y", [("p", JSON.num 1)], "intent action"⟩,
    ⟨"x", [("p", JSON.num 1)], "intent action"⟩,
    ⟨"a1", [("p", JSON.num 1)], "intent action"⟩,
    ⟨"y", [("q", JSON.num 2)], "intent action"⟩]

/-- Witness for C7 at a concrete input: the unknown devices `y, x, y` are
reported sorted and deduplicated as `x, y`. -/
theorem claim_C7_witness :
    parse_actions unknownDevicesIntent.desired = .ok unknownDevicesActions
    ∧ missingDevices twoLeafInventory unknownDevicesActions ≠ []
    ∧ plan_change {} unknownDevicesIntent twoLeafInventory
        = .error "plan references devices not present in inventory: x, y" :=
  ⟨by rfl, by decide,
    (claim_C7 {} unknownDevicesIntent twoLeafInventory).2 unknownDevicesActions
      (by rfl) (by decide)⟩

/-- An inventory containing a device with the empty string as its name. -/
def emptyNameInventory : InventoryStore :=
  (InventoryStore.mk []).add (sampleDevice "" DeviceRole.leaf)

/-- A single-action shorthand intent whose action names the empty device
string. -/
def emptyDeviceIntent : IntentChange :=
  ⟨"c7b", "fabric",
    [("device", JSON.str ""), ("model_paths", JSON.obj [("p", JSON.num 1)])],
    [], "empty device"⟩

/-- Counterexample for claim C7 as frozen: a single-action shorthand intent
whose action has an empty device string is not rejected — over an inventory
that contains a device named `""`, `plan_change` succeeds. -/
theorem claim_C7_counterexample :
    parse_actions emptyDeviceIntent.desired
      = .ok [⟨"", [("p", JSON.num 1)], "intent action"⟩]
    ∧ (plan_change {} emptyDeviceIntent emptyNameInventory).toOption.isSome = true :=
  ⟨rfl, rfl⟩

/-! ## C8: spine-external all-or-none policy -/

/-- Does a device carry at least one edge of external kind in the graph? -/
def hasExternalEdge (g : FabricGraph) (d : DeviceRecord) : Bool :=
  (g.edges_from d.name).any (fun e => isExternalKind e.kind)

theorem spine_role_ne_border_leaf (r : DeviceRole) (h : is_spine_role r = true) :
    ¬ r = DeviceRole.border_leaf := by
  cases r <;> simp_all [is_spine_role]

theorem carrierFold_spine_mem (dev : DeviceRecord) :
    ∀ (es : List GraphEdge) (acc : List String × List String × List String) (n : String),
      (n ∈ (es.foldl (carrierStep dev) acc).2.1 ↔
        n ∈ acc.2.1 ∨ (¬ dev.role = DeviceRole.border_leaf ∧ is_spine_role dev.role = true
          ∧ n = dev.name ∧ es.any (fun e => isExternalKind e.kind) = true))
  | [], acc, n => by simp
  | e :: rest, acc, n => by
    simp only [List.foldl_cons, List.any_cons]
    rw [carrierFold_spine_mem dev rest (carrierStep dev acc e) n]
    by_cases hx : isExternalKind e.kind = true
    · by_cases hb : dev.role = DeviceRole.border_leaf
      · have hstep : carrierStep dev acc e = (acc.1 ++ [dev.name], acc.2.1, acc.2.2) := by
          unfold carrierStep
          rw [if_pos hx, if_pos hb]
        rw [hstep]
        simp [hb]
      · by_cases hs : is_spine_role dev.role = true
        · have hstep : carrierStep dev acc e = (acc.1, acc.2.1 ++ [dev.name], acc.2.2) := by
            unfold carrierStep
            rw [if_pos hx, if_neg hb, if_pos hs]
          rw [hstep]
          show n ∈ acc.2.1 ++ [dev.name] ∨ _ ↔ _
          rw [List.mem_append, List.mem_singleton]
          constructor
          · rintro ((h | h) | ⟨h1, h2, h3, h4⟩)
            · exact Or.inl h
            · exact Or.inr ⟨hb, hs, h, by rw [hx]; exact Bool.true_or _⟩
            · exact Or.inr ⟨h1, h2, h3, by rw [hx]; exact Bool.true_or _⟩
          · rintro (h | ⟨h1, h2, h3, h4⟩)
            · exact Or.inl (Or.inl h)
            · exact Or.inl (Or.inr h3)
        · have hstep : carrierStep dev acc e = (acc.1, acc.2.1, acc.2.2 ++ [dev.name]) := by
            unfold carrierStep
            rw [if_pos hx, if_neg hb, if_neg hs]
          rw [hstep]
          simp [hs]
    · have hx' : isExternalKind e.kind = false := by simpa using hx
      have hstep : carrierStep dev acc e = acc := by
        unfold carrierStep
        rw [hx']
        simp
      rw [hstep]
      simp [hx']

theorem carriersOuter_spine_mem (g : FabricGraph) :
    ∀ (devs : List DeviceRecord) (acc : List String × List String × List String)
      (n : String),
      (n ∈ (devs.foldl
          (fun acc dev => (g.edges_from dev.name).foldl (carrierStep dev) acc) acc).2.1 ↔
        n ∈ acc.2.1 ∨ ∃ d, d ∈ devs ∧ is_spine_role d.role = true ∧ n = d.name
          ∧ hasExternalEdge g d = true)
  | [], acc, n => by simp
  | dev :: rest, acc, n => by
    simp only [List.foldl_cons]
    rw [carriersOuter_spine_mem g rest _ n, carrierFold_spine_mem dev _ acc n]
    constructor
    · rintro ((h | h) | h)
      · exact Or.inl h
      · exact Or.inr ⟨dev, List.mem_cons_self _ _, h.2.1, h.2.2.1, h.2.2.2⟩
      · obtain ⟨d, hd, hrest⟩ := h
        exact Or.inr ⟨d, List.mem_cons_of_mem _ hd, hrest⟩
    · rintro (h | ⟨d, hd, hsp, hn, hx⟩)
      · exact Or.inl (Or.inl h)
      · rcases List.mem_cons.mp hd with hd | hd
        · subst hd
          exact Or.inl (Or.inr ⟨spine_role_ne_border_leaf _ hsp, hsp, hn, hx⟩)
        · exact Or.inr ⟨d, hd, hsp, hn, hx⟩

theorem spinesWithExternal_mem (g : FabricGraph) (n : String) :
    n ∈ (externalCarriers g).2.1 ↔
      ∃ d, d ∈ g.nodes.values ∧ is_spine_role d.role = true ∧ n = d.name
        ∧ hasExternalEdge g d = true := by
  unfold externalCarriers
  rw [carriersOuter_spine_mem g g.nodes.values ([], [], []) n]
  simp

/-- With unique node keys that match the records' names, the number of
distinct spine names collected by the classification loop equals the number
of spine-like devices carrying an external edge. -/
theorem spinesWithExternal_dedup_length (g : FabricGraph)
    (hnodup : g.nodes.keys.Nodup)
    (hnames : ∀ kd ∈ g.nodes, (Prod.snd kd).name = kd.1) :
    (externalCarriers g).2.1.dedup.length
      = ((g.nodes.values.filter (fun d => is_spine_role d.role)).filter
          (fun d => hasExternalEdge g d)).length := by
  have hvmap : g.nodes.values.map (fun d => d.name) = g.nodes.keys := by
    show (g.nodes.map Prod.snd).map (fun d => d.name) = g.nodes.map Prod.fst
    rw [List.map_map]
    exact List.map_congr_left hnames
  have hvnodup : (g.nodes.values.map (fun d => d.name)).Nodup := by
    rw [hvmap]
    exact hnodup
  have hcnodup :
      (((g.nodes.values.filter (fun d => is_spine_role d.role)).filter
        (fun d => hasExternalEdge g d)).map (fun d => d.name)).Nodup := by
    refine List.Nodup.sublist (List.Sublist.map _ ?_) hvnodup
    exact ((g.nodes.values.filter (fun d => is_spine_role d.role)).filter_sublist).trans
      (g.nodes.values.filter_sublist)
  have hmemiff : ∀ n, n ∈ (externalCarriers g).2.1.dedup ↔
      n ∈ ((g.nodes.values.filter (fun d => is_spine_role d.role)).filter
        (fun d => hasExternalEdge g d)).map (fun d => d.name) := by
    intro n
    rw [List.mem_dedup, spinesWithExternal_mem g n, List.mem_map]
    constructor
    · rintro ⟨d, hd, hsp, hn, hx⟩
      refine ⟨d, ?_, hn.symm⟩
      rw [List.mem_filter]
      exact ⟨List.mem_filter.mpr ⟨hd, hsp⟩, hx⟩
    · rintro ⟨d, hd, hn⟩
      rw [List.mem_filter] at hd
      obtain ⟨hd1, hx⟩ := hd
      rw [List.mem_filter] at hd1
      exact ⟨d, hd1.1, hd1.2, hn.symm, hx⟩
  have hfin : (externalCarriers g).2.1.dedup.toFinset
      = (((g.nodes.values.filter (fun d => is_spine_role d.role)).filter
          (fun d => hasExternalEdge g d)).map (fun d => d.name)).toFinset := by
    apply Finset.ext
    intro n
    rw [List.mem_toFinset, List.mem_toFinset]
    exact hmemiff n
  have h1 := List.toFinset_card_of_nodup (externalCarriers g).2.1.nodup_dedup
  have h2 := List.toFinset_card_of_nodup hcnodup
  rw [← h1, hfin, h2, List.length_map]

/-- The errors computed in the spine-external (no border leaf) branch. -/
theorem validate_errors_no_border (g : FabricGraph)
    (hnb : (g.nodes.values.filter (fun d => d.role = DeviceRole.border_leaf)).isEmpty
      = true) :
    (validate_external_connectivity g).errors
      = (if ¬ (g.nodes.values.filter (fun d => is_spine_role d.role)).isEmpty
            ∧ 0 < (externalCarriers g).2.1.dedup.length
            ∧ (externalCarriers g).2.1.dedup.length
                < (g.nodes.values.filter (fun d => is_spine_role d.role)).length
          then [partialSpineMsg] else [])
    ∧ (validate_external_connectivity g).ok
      = (if ¬ (g.nodes.values.filter (fun d => is_spine_role d.role)).isEmpty
            ∧ 0 < (externalCarriers g).2.1.dedup.length
            ∧ (externalCarriers g).2.1.dedup.length
                < (g.nodes.values.filter (fun d => is_spine_role d.role)).length
          then ([partialSpineMsg] : List String) else []).isEmpty := by
  unfold validate_external_connectivity
  rcases hE : externalCarriers g with ⟨bl, spx, ot⟩
  dsimp only
  rw [hnb]
  by_cases hc : ¬ (g.nodes.values.filter (fun d => is_spine_role d.role)).isEmpty = true
      ∧ 0 < spx.dedup.length
      ∧ spx.dedup.length
          < (g.nodes.values.filter (fun d => is_spine_role d.role)).length
  · simp [hc]
  · simp [hc]

/-- Claim C8: for every well-formed fabric graph (unique node keys matching
record names) with no border_leaf device and at least two spine-like
devices, if at least one but not all spine-like devices carry an edge of
external kind then `validate_external_connectivity` returns `ok = false`
with a blocking error mentioning partial spine external connectivity; if
all or none carry one, no error is produced at all. -/
theorem claim_C8 (g : FabricGraph)
    (hnodup : g.nodes.keys.Nodup)
    (hnames : ∀ kd ∈ g.nodes, (Prod.snd kd).name = kd.1)
    (hnob : ∀ d ∈ g.nodes.values, ¬ d.role = DeviceRole.border_leaf)
    (hsp : 2 ≤ (g.nodes.values.filter (fun d => is_spine_role d.role)).length) :
    ((0 < ((g.nodes.values.filter (fun d => is_spine_role d.role)).filter
          (fun d => hasExternalEdge g d)).length
      ∧ ((g.nodes.values.filter (fun d => is_spine_role d.role)).filter
          (fun d => hasExternalEdge g d)).length
        < (g.nodes.values.filter (fun d => is_spine_role d.role)).length) →
      ((validate_external_connectivity g).ok = false
        ∧ partialSpineMsg ∈ (validate_external_connectivity g).errors
        ∧ strContains partialSpineMsg "partial spine external connectivity" = true))
    ∧ ((((g.nodes.values.filter (fun d => is_spine_role d.role)).filter
          (fun d => hasExternalEdge g d)).length = 0
        ∨ ((g.nodes.values.filter (fun d => is_spine_role d.role)).filter
            (fun d => hasExternalEdge g d)).length
          = (g.nodes.values.filter (fun d => is_spine_role d.role)).length) →
      (validate_external_connectivity g).errors = []) := by
  have hnb : (g.nodes.values.filter (fun d => d.role = DeviceRole.border_leaf)).isEmpty
      = true := by
    rw [List.isEmpty_iff, List.filter_eq_nil_iff]
    intro d hd
    simpa using hnob d hd
  obtain ⟨herr, hok⟩ := validate_errors_no_border g hnb
  have hlen := spinesWithExternal_dedup_length g hnodup hnames
  have hnonempty :
      ¬ (g.nodes.values.filter (fun d => is_spine_role d.role)).isEmpty = true := by
    intro he
    rw [List.isEmpty_iff] at he
    rw [he] at hsp
    simp at hsp
  constructor
  · rintro ⟨hpos, hlt⟩
    have hcond : ¬ (g.nodes.values.filter (fun d => is_spine_role d.role)).isEmpty = true
        ∧ 0 < (externalCarriers g).2.1.dedup.length
        ∧ (externalCarriers g).2.1.dedup.length
            < (g.nodes.values.filter (fun d => is_spine_role d.role)).length := by
      rw [hlen]
      exact ⟨hnonempty, hpos, hlt⟩
    rw [herr, hok]
    rw [if_pos hcond]
    exact ⟨rfl, List.mem_singleton.mpr rfl, by decide⟩
  · intro hall
    have hcond : ¬ (¬ (g.nodes.values.filter (fun d => is_spine_role d.role)).isEmpty = true
        ∧ 0 < (externalCarriers g).2.1.dedup.length
        ∧ (externalCarriers g).2.1.dedup.length
            < (g.nodes.values.filter (fun d => is_spine_role d.role)).length) := by
      rw [hlen]
      rintro ⟨-, hpos, hlt⟩
      rcases hall with hall | hall
      · rw [hall] at hpos
        exact absurd hpos (by simp)
      · rw [hall] at hlt
        exact absurd hlt (by simp)
    rw [herr, if_neg hcond]

/-- The S4 scenario graph: `spine1` with an internet link, `spine2` with
none. -/
def partialSpineGraph : FabricGraph :=
  build_fabric_graph
    (((InventoryStore.mk []).add
        (sampleDevice "spine1" DeviceRole.spine [⟨"eth1", "inet", "e0", LinkKind.internet⟩])).add
      (sampleDevice "spine2" DeviceRole.spine))

/-- Witness for C8 at the S4 scenario: exactly one of two spines carries an
external link, so validation fails with the partial-spine error. -/
theorem claim_C8_witness :
    (partialSpineGraph.nodes.keys.Nodup
      ∧ (∀ kd ∈ partialSpineGraph.nodes, (Prod.snd kd).name = kd.1)
      ∧ (∀ d ∈ partialSpineGraph.nodes.values, ¬ d.role = DeviceRole.border_leaf)
      ∧ 2 ≤ (partialSpineGraph.nodes.values.filter
          (fun d => is_spine_role d.role)).length
      ∧ 0 < ((partialSpineGraph.nodes.values.filter (fun d => is_spine_role d.role)).filter
          (fun d => hasExternalEdge partialSpineGraph d)).length
      ∧ ((partialSpineGraph.nodes.values.filter (fun d => is_spine_role d.role)).filter
          (fun d => hasExternalEdge partialSpineGraph d)).length
        < (partialSpineGraph.nodes.values.filter (fun d => is_spine_role d.role)).length)
    ∧ ((validate_external_connectivity partialSpineGraph).ok = false
      ∧ partialSpineMsg ∈ (validate_external_connectivity partialSpineGraph).errors
      ∧ strContains partialSpineMsg "partial spine external connectivity" = true) :=
  ⟨⟨by decide, by decide, by decide, by decide, by decide, by decide⟩,
    (claim_C8 partialSpineGraph (by decide) (by decide) (by decide) (by decide)).1
      ⟨by decide, by decide⟩⟩

/-! ## C2: engine behavior when the evaluation tool fails -/

/-- An evaluation tool whose `evaluate_plan` always fails by transport
error. -/
def failingTool : EvaluationTool := fun _ _ => .error ToolError.transport

/-- Claim C2 (amended): when an evaluation tool is configured and its
`evaluate_plan` call fails (transport error, timeout, or non-ok RPC
response), the exception propagates out of `run_once`: the run does not
complete and the local deterministic assessor is not consulted. The local
assessor is used only when no tool is configured. -/
theorem claim_C2 (planner_config : PlannerConfig) (guard_config : GuardConfig)
    (tool : EvaluationTool) (executor : InMemoryExecutor) (intent : IntentChange)
    (inventory : InventoryStore) (plan : ChangePlan) (e : ToolError)
    (hplan : plan_change planner_config intent inventory = .ok plan)
    (htool : tool plan inventory = .error e) :
    run_once planner_config guard_config (some tool) executor intent inventory
      = .error (EngineError.tool e) := by
  unfold run_once evaluate_risk
  rw [hplan]
  simp [htool]

/-- Witness for C2 at a concrete input: the transport-failing tool makes
`run_once` raise instead of completing. -/
theorem claim_C2_witness :
    plan_change {} hostnameIntent leafInventory = .ok hostnamePlan
    ∧ failingTool hostnamePlan leafInventory = .error ToolError.transport
    ∧ run_once {} {} (some failingTool) ⟨[], []⟩ hostnameIntent leafInventory
        = .error (EngineError.tool ToolError.transport) :=
  ⟨rfl, rfl,
    claim_C2 {} {} failingTool ⟨[], []⟩ hostnameIntent leafInventory hostnamePlan
      ToolError.transport rfl rfl⟩

/-- Counterexample for claim C2 as frozen: with a configured tool that fails
by transport error on a valid one-action intent, `run_once` does not
complete the run with the local assessor's result — it raises. -/
theorem claim_C2_counterexample :
    run_once {} {} (some failingTool) ⟨[], []⟩ hostnameIntent leafInventory
      = .error (EngineError.tool ToolError.transport) := rfl

theorem claim_C6_counterexample :
    (guard_decide {}
        ⟨RiskLevel.low, 10, false, ["r"], ⟨1, ["d"], ⟨1, 0, 0, 0⟩, ⟨false, false, false⟩⟩⟩).reasons
      = ["r"]
    ∧ (guard_decide {}
        ⟨RiskLevel.low, 10, false, ["r"], ⟨1, ["d"], ⟨1, 0, 0, 0⟩, ⟨false, false, false⟩⟩⟩).reasons.length
      ≠ (["r"] : List String).length + 1 := by
  exact ⟨rfl, by decide⟩

end DcOrch
